import Mathlib

/-!
Flowchart generator: a verification development.

Shallow embedding of the React component of src/flowchart-frontend/src/App.jsx
(component state, the four event handlers and the parts of the rendered tree that
read the state), followed by a model of the generation pipeline that the component
talks to through the endpoint contract.

Modelling conventions.
* Component state is a record; every setter call is a record update, applied in
  program order.  One run of a handler is modelled without interleaving of other
  events.
* Everything outside the component (network, console, DOM, object URLs) is the
  record Browser; what the outside world answers is the record Env.
* A JavaScript string is modelled by a Lean String (a sequence of Unicode scalar
  values; lone surrogates are outside the model).  JSON numbers are modelled by
  integers.
* A statement sequence evaluates to a Step: the state reached and the exception in
  flight, if any.
-/

namespace FlowchartGenerator

/-! ## JavaScript values -/

/-- Values that a decoded JSON body can hold, together with undefined. -/
inductive JsVal where
  | undefined
  | null
  | bool (b : Bool)
  | num (n : Int)
  | str (s : String)
  | arr (items : List JsVal)
  | obj (fields : List (String × JsVal))

/-- Exceptions that the handlers can meet. -/
inductive JsError where
  | referenceError (name : String)
  | typeError (what : String)
  | syntaxError
  | networkError
  | bodyReadError
  deriving DecidableEq

/-- ToBoolean of the language: the falsy values are undefined, null, false, 0 and
the empty string. -/
def truthy : JsVal → Bool
  | .undefined => false
  | .null => false
  | .bool b => b
  | .num n => n != 0
  | .str s => s != ""
  | .arr _ => true
  | .obj _ => true

mutual
/-- ToString of the language, as used by a template literal. -/
def toJsString : JsVal → String
  | .undefined => "undefined"
  | .null => "null"
  | .bool b => if b then "true" else "false"
  | .num n => toString n
  | .str s => s
  | .arr items => joinItems items
  | .obj _ => "[object Object]"
/-- Array.prototype.join with a comma: null and undefined elements print as the
empty string. -/
def joinItems : List JsVal → String
  | [] => ""
  | [x] => itemString x
  | x :: y :: rest => itemString x ++ "," ++ joinItems (y :: rest)
/-- One element of a joined array. -/
def itemString : JsVal → String
  | .undefined => ""
  | .null => ""
  | .bool b => if b then "true" else "false"
  | .num n => toString n
  | .str s => s
  | .arr items => joinItems items
  | .obj _ => "[object Object]"
end

/-- Own-property lookup in a decoded JSON object. -/
def lookupField (name : String) : List (String × JsVal) → JsVal
  | [] => .undefined
  | (k, v) :: rest => if k = name then v else lookupField name rest

/-- Property read data.name for the property names the component uses (success,
image_url, nodes, edges, mermaid, error): it throws on undefined and null, reads the
own property of an object, and is undefined on every other value. -/
def getProp (v : JsVal) (name : String) : Except JsError JsVal :=
  match v with
  | .undefined => .error (.typeError name)
  | .null => .error (.typeError name)
  | .obj fields => .ok (lookupField name fields)
  | _ => .ok .undefined

/-! ## String.prototype.trim -/

/-- WhiteSpace and LineTerminator code points of the language. -/
def isJsWhitespace (c : Char) : Bool :=
  let n := c.toNat
  n == 0x09 || n == 0x0A || n == 0x0B || n == 0x0C || n == 0x0D || n == 0x20 ||
  n == 0xA0 || n == 0x1680 || (0x2000 ≤ n && n ≤ 0x200A) || n == 0x2028 ||
  n == 0x2029 || n == 0x202F || n == 0x205F || n == 0x3000 || n == 0xFEFF

/-- Removes leading white space. -/
def trimStartChars (cs : List Char) : List Char :=
  cs.dropWhile isJsWhitespace

/-- Removes trailing white space. -/
def trimEndChars (cs : List Char) : List Char :=
  (cs.reverse.dropWhile isJsWhitespace).reverse

/-- String.prototype.trim. -/
def jsTrim (s : String) : String :=
  String.mk (trimEndChars (trimStartChars s.data))

/-! ## JSON.stringify of the request object -/

/-- Lower-case hexadecimal digit. -/
def hexDigit (n : Nat) : Char :=
  if n < 10 then Char.ofNat (48 + n) else Char.ofNat (87 + n)

/-- QuoteJSONString, one code point: the quotation mark and the reverse solidus are
escaped with a reverse solidus, the control characters below U+0020 by their short
form (b, t, n, f, r) or by u00XX, everything else is copied. -/
def escapeChar (c : Char) : List Char :=
  let n := c.toNat
  if n = 34 then [Char.ofNat 92, Char.ofNat 34]
  else if n = 92 then [Char.ofNat 92, Char.ofNat 92]
  else if n = 8 then [Char.ofNat 92, 'b']
  else if n = 9 then [Char.ofNat 92, 't']
  else if n = 10 then [Char.ofNat 92, 'n']
  else if n = 12 then [Char.ofNat 92, 'f']
  else if n = 13 then [Char.ofNat 92, 'r']
  else if n < 32 then [Char.ofNat 92, 'u', '0', '0', hexDigit (n / 16), hexDigit (n % 16)]
  else [c]

/-- Escapes every code point of a string body. -/
def escapeChars : List Char → List Char
  | [] => []
  | c :: cs => escapeChar c ++ escapeChars cs

/-- QuoteJSONString: the escaped body between quotation marks. -/
def jsonQuote (s : String) : List Char :=
  Char.ofNat 34 :: (escapeChars s.data ++ [Char.ofNat 34])

/-- JSON.stringify of the object literal of line 69, an object with the single key
text whose value is inputText: brace, quoted key, colon, quoted value, brace. -/
def stringifyTextObject (inputText : String) : String :=
  String.mk ([Char.ofNat 123] ++ jsonQuote "text" ++ [':'] ++ jsonQuote inputText ++
    [Char.ofNat 125])

/-! ## Component state and the outside world -/

/-- The object handed to setResult. -/
structure GenResult where
  imageUrl : String
  nodes : JsVal
  edges : JsVal
  mermaid : JsVal

/-- The four useState cells of the component. -/
structure State where
  inputText : String
  loading : Bool
  result : Option GenResult
  error : JsVal

/-- Initial values of the useState cells. -/
def initialState : State :=
  { inputText := "", loading := false, result := none, error := .str "" }

/-- A call of fetch. -/
structure Request where
  method : String
  url : String
  headers : List (String × String)
  body : Option String
  deriving DecidableEq

/-- A fetch Response, reduced to what the two body readers give: json() resolves to
a value or rejects, blob() resolves to the bytes or rejects. -/
structure Response where
  json : Option JsVal
  blob : Option (List Nat)

/-- Settlement of the promise returned by fetch. -/
inductive FetchOutcome where
  | rejected
  | resolved (response : Response)

/-- An anchor element created by document.createElement. -/
structure Element where
  nodeId : Nat
  tag : String
  href : String
  download : String
  deriving DecidableEq

/-- Observable effects outside the component. -/
structure Browser where
  requests : List Request
  consoleErrors : List JsError
  bodyChildren : List Element
  objectUrls : List String
  clicked : List Element
  nextNodeId : Nat

/-- A browser in which nothing has happened yet. -/
def emptyBrowser : Browser :=
  { requests := [], consoleErrors := [], bodyChildren := [], objectUrls := [],
    clicked := [], nextNodeId := 0 }

/-- What the outside world answers: the settlement of each fetch, the clock read by
new Date().getTime(), and the URL minted by URL.createObjectURL. -/
structure Env where
  net : Request → FetchOutcome
  now : Int
  freshObjectUrl : String

/-- Result of running a statement sequence. -/
structure Step where
  state : State
  browser : Browser
  thrown : Option JsError

/-! ## exampleText (lines 10-50) -/

/-- The lines of the template literal exampleText, in order. -/
def exampleLines : List String := [
    "Project Management System",
    "Planning Phase",
    "    Requirements Gathering",
    "        Stakeholder Interviews",
    "        Document Review",
    "        Competitive Analysis",
    "    Resource Allocation",
    "        Team Assignment",
    "        Budget Planning",
    "        Tool Selection",
    "    Timeline Creation",
    "        Milestone Definition",
    "        Task Breakdown",
    "        Dependency Mapping",
    "Execution Phase",
    "    Development",
    "        Frontend Development",
    "            UI Design",
    "            Component Building",
    "            State Management",
    "        Backend Development",
    "            API Design",
    "            Database Schema",
    "            Authentication",
    "        Testing",
    "            Unit Testing",
    "            Integration Testing",
    "            User Acceptance Testing",
    "    Deployment",
    "        Environment Setup",
    "        CI/CD Pipeline",
    "        Production Release",
    "Monitoring Phase",
    "    Performance Tracking",
    "        Metrics Collection",
    "        Analytics Dashboard",
    "        Report Generation",
    "    Maintenance",
    "        Bug Fixes",
    "        Feature Updates",
    "        Security Patches"
  ]

/-- The constant exampleText: the lines joined by line feeds. -/
def exampleText : String :=
  String.intercalate "\n" exampleLines

/-- Splits a list of characters at every line feed. -/
def splitLinesAux : List Char → List Char → List (List Char)
  | [], cur => [cur.reverse]
  | c :: cs, cur =>
    if c = '\n' then cur.reverse :: splitLinesAux cs [] else splitLinesAux cs (c :: cur)

/-- The lines of a text (split at line feeds). -/
def textLines (s : String) : List String :=
  (splitLinesAux s.data []).map String.mk

/-- A line has leading white space when its first character is white space. -/
def hasLeadingWhitespace (line : String) : Bool :=
  match line.data with
  | [] => false
  | c :: _ => isJsWhitespace c

/-- Lines of a text that start in the first column. -/
def topLevelLines (s : String) : List String :=
  (textLines s).filter (fun l => !hasLeadingWhitespace l)

/-! ## Event handlers (lines 52-129) -/

/-- The setter setInputText. -/
def setInputText (v : String) (s : State) : State := { s with inputText := v }

/-- The setter setLoading. -/
def setLoading (v : Bool) (s : State) : State := { s with loading := v }

/-- The setter setResult. -/
def setResult (v : Option GenResult) (s : State) : State := { s with result := v }

/-- The setter setError. -/
def setError (v : JsVal) (s : State) : State := { s with error := v }

/-- Message of line 54. -/
def msgEmptyInput : String := "Please enter some text to generate a flowchart"

/-- Message of line 82. -/
def msgGenerateFailed : String := "Failed to generate flowchart"

/-- Message of line 85. -/
def msgBackend : String :=
  "Unable to connect to backend. Ensure Python server is running on http://localhost:5000"

/-- Message of line 114. -/
def msgDownload : String :=
  "Failed to download image. Please try right-clicking and saving the image."

/-- Names bound in the scopes that enclose the try block of handleGenerate: the
imports of lines 1-2 and the declarations of the component function (lines 4-129). -/
def enclosingScope : List String :=
  ["React", "useState", "FileText", "Download", "Sparkles", "Loader2", "CheckCircle2",
   "AlertCircle", "Zap", "RefreshCw", "Brain", "Rocket", "Star", "TrendingUp",
   "Lightbulb", "ArrowRight", "FlowchartGenerator", "inputText", "setInputText",
   "loading", "setLoading", "result", "setResult", "error", "setError", "exampleText",
   "handleGenerate", "handleDownload", "loadExample", "clearAll"]

/-- Names bound to a Response inside the try block of handleGenerate when line 72
runs.  Line 64 awaits fetch as an expression statement (line 63, which declared
response, is commented out), so the settled Response is bound to no name. -/
def tryBlockBindings (_fetched : Response) : List (String × Response) := []

/-- Evaluation of an identifier that is used as a Response: a block binding gives
its value; a name of the enclosing scopes is bound to a value without a json method,
so the call on it is a TypeError; any other name is unresolvable, a ReferenceError
(the global object of the page is taken to have no property of that name). -/
def readIdentifier (bindings : List (String × Response)) (name : String) :
    Except JsError Response :=
  match bindings.lookup name with
  | some r => .ok r
  | none =>
    if name ∈ enclosingScope then .error (.typeError name)
    else .error (.referenceError name)

/-- The object literal of lines 75-80. -/
def successResult (data : JsVal) : Except JsError GenResult := do
  let imageUrl ← getProp data "image_url"
  let nodes ← getProp data "nodes"
  let edges ← getProp data "edges"
  let mermaid ← getProp data "mermaid"
  pure { imageUrl := "http://localhost:5000" ++ toJsString imageUrl,
         nodes := nodes, edges := edges, mermaid := mermaid }

/-- Lines 74-83: the branch on data.success. -/
def processData (data : JsVal) (s : State) : Except JsError State := do
  let success ← getProp data "success"
  if truthy success then
    let r ← successResult data
    pure (setResult (some r) s)
  else
    let err ← getProp data "error"
    pure (setError (if truthy err then err else .str msgGenerateFailed) s)

/-- The fetch call of lines 64-70. -/
def generateRequest (inputText : String) : Request :=
  { method := "POST", url := "/generate",
    headers := [("Content-Type", "application/json")],
    body := some (stringifyTextObject inputText) }

/-- The try block of handleGenerate (lines 62-83). -/
def tryGenerate (env : Env) (s : State) (b : Browser) : Step :=
  let req := generateRequest s.inputText
  let b1 := { b with requests := b.requests ++ [req] }
  match env.net req with
  | .rejected => { state := s, browser := b1, thrown := some .networkError }
  | .resolved fetched =>
    match readIdentifier (tryBlockBindings fetched) "response" with
    | .error e => { state := s, browser := b1, thrown := some e }
    | .ok response =>
      match response.json with
      | none => { state := s, browser := b1, thrown := some .syntaxError }
      | some data =>
        match processData data s with
        | .error e => { state := s, browser := b1, thrown := some e }
        | .ok s2 => { state := s2, browser := b1, thrown := none }

/-- The catch block of handleGenerate (lines 84-86). -/
def catchGenerate (err : JsError) (s : State) (b : Browser) : Step :=
  { state := setError (.str msgBackend) s,
    browser := { b with consoleErrors := b.consoleErrors ++ [err] },
    thrown := none }

/-- The handler handleGenerate (lines 52-90). -/
def handleGenerate (env : Env) (s : State) (b : Browser) : Step :=
  if !truthy (.str (jsTrim s.inputText)) then
    { state := setError (.str msgEmptyInput) s, browser := b, thrown := none }
  else
    let s1 := setResult none (setError (.str "") (setLoading true s))
    let t := tryGenerate env s1 b
    let c := match t.thrown with
      | some err => catchGenerate err t.state t.browser
      | none => t
    { state := setLoading false c.state, browser := c.browser, thrown := c.thrown }

/-- The fetch call of line 96. -/
def downloadRequest (url : String) : Request :=
  { method := "GET", url := url, headers := [], body := none }

/-- The try block of handleDownload (lines 95-111). -/
def tryDownload (env : Env) (r : GenResult) (s : State) (b : Browser) : Step :=
  let req := downloadRequest r.imageUrl
  let b1 := { b with requests := b.requests ++ [req] }
  match env.net req with
  | .rejected => { state := s, browser := b1, thrown := some .networkError }
  | .resolved response =>
    match response.blob with
    | none => { state := s, browser := b1, thrown := some .bodyReadError }
    | some _ =>
      let blobUrl := env.freshObjectUrl
      let b2 := { b1 with objectUrls := b1.objectUrls ++ [blobUrl] }
      let link : Element :=
        { nodeId := b2.nextNodeId, tag := "a", href := blobUrl,
          download := "flowchart_" ++ toString env.now ++ ".png" }
      let b3 := { b2 with nextNodeId := b2.nextNodeId + 1 }
      let b4 := { b3 with bodyChildren := b3.bodyChildren ++ [link] }
      let b5 := { b4 with clicked := b4.clicked ++ [link] }
      let b6 := { b5 with
        bodyChildren := b5.bodyChildren.filter (fun e => e.nodeId != link.nodeId) }
      let b7 := { b6 with objectUrls := b6.objectUrls.filter (fun u => u != blobUrl) }
      { state := s, browser := b7, thrown := none }

/-- The catch block of handleDownload (lines 112-115). -/
def catchDownload (err : JsError) (s : State) (b : Browser) : Step :=
  { state := setError (.str msgDownload) s,
    browser := { b with consoleErrors := b.consoleErrors ++ [err] },
    thrown := none }

/-- The handler handleDownload (lines 92-117); the guard is result?.imageUrl. -/
def handleDownload (env : Env) (s : State) (b : Browser) : Step :=
  match s.result with
  | none => { state := s, browser := b, thrown := none }
  | some r =>
    if truthy (.str r.imageUrl) then
      let t := tryDownload env r s b
      match t.thrown with
      | some err => catchDownload err t.state t.browser
      | none => t
    else { state := s, browser := b, thrown := none }

/-- The handler loadExample (lines 119-123). -/
def loadExample (s : State) : State :=
  setResult none (setError (.str "") (setInputText exampleText s))

/-- The handler clearAll (lines 125-129). -/
def clearAll (s : State) : State :=
  setError (.str "") (setResult none (setInputText "" s))

/-! ## Rendered tree -/

/-- The disabled attribute of the Generate button (line 498). -/
def generateDisabled (s : State) : Bool :=
  s.loading || !truthy (.str (jsTrim s.inputText))

/-- The src attribute of the img element (lines 706, 778 and 791): the element is
rendered when loading is false and result is not null. -/
def displayedImageSrc (s : State) : Option String :=
  if s.loading then none else s.result.map (fun r => r.imageUrl)

/-! ## Reading a request body back -/

/-- Value of a hexadecimal digit. -/
def hexValue (c : Char) : Option Nat :=
  let n := c.toNat
  if 48 ≤ n ∧ n ≤ 57 then some (n - 48)
  else if 97 ≤ n ∧ n ≤ 102 then some (n - 87)
  else if 65 ≤ n ∧ n ≤ 70 then some (n - 55)
  else none

/-- Code point of a four-digit hexadecimal escape. -/
def hexCode (h1 h2 h3 h4 : Char) : Option Char :=
  match hexValue h1, hexValue h2, hexValue h3, hexValue h4 with
  | some a, some b, some c, some d => some (Char.ofNat (((a * 16 + b) * 16 + c) * 16 + d))
  | _, _, _, _ => none

/-- Character denoted by the letter of a two-character escape. -/
def decodeShortEscape (e : Char) : Option Char :=
  let n := e.toNat
  if n = 34 then some (Char.ofNat 34)
  else if n = 92 then some (Char.ofNat 92)
  else if n = 98 then some (Char.ofNat 8)
  else if n = 116 then some (Char.ofNat 9)
  else if n = 110 then some (Char.ofNat 10)
  else if n = 102 then some (Char.ofNat 12)
  else if n = 114 then some (Char.ofNat 13)
  else none

/-- Puts a decoded character in front of a decoded remainder. -/
def prependChar (c : Char) (p : List Char × List Char) : List Char × List Char :=
  (c :: p.1, p.2)

/-- Reads the body of a JSON string up to its closing quotation mark and undoes
the escapes; gives the decoded body and what follows the closing mark. -/
def unescapeChars : List Char → Option (List Char × List Char)
  | [] => none
  | c :: cs =>
    if c.toNat = 34 then some ([], cs)
    else if c.toNat ≠ 92 then (unescapeChars cs).map (prependChar c)
    else
      match cs with
      | [] => none
      | e :: rest =>
        if e.toNat = 117 then
          match rest with
          | h1 :: h2 :: h3 :: h4 :: rest4 =>
            match hexCode h1 h2 h3 h4 with
            | some ch => (unescapeChars rest4).map (prependChar ch)
            | none => none
          | _ => none
        else
          match decodeShortEscape e with
          | some d => (unescapeChars rest).map (prependChar d)
          | none => none

/-- Opening of a body of the shape of stringifyTextObject: the brace, the key text,
the colon and the opening quotation mark of the value. -/
def textObjectOpening : List Char :=
  [Char.ofNat 123] ++ jsonQuote "text" ++ [':', Char.ofNat 34]

/-- Reads a request body of the shape of stringifyTextObject and gives the value of
its field text. -/
def decodeTextObject (body : String) : Option String :=
  if textObjectOpening.isPrefixOf body.data then
    match unescapeChars (body.data.drop textObjectOpening.length) with
    | some (text, tail) => if tail = [Char.ofNat 125] then some (String.mk text) else none
    | none => none
  else none

/-! ## The generation pipeline behind the endpoint

The component only sees the endpoint contract; the pipeline itself is not part of
src/.  Stages 1-3 and the limits of stage 7 are modelled from sections 3, 4.1-4.3
and 4.7 of the specification.  The later stages (layout, emitter, raster) read the
graph without changing it and can only turn a success into a failure.
-/

/-- Modelled from the spec: the error taxonomy of section 7 (the compiler that raises
these errors is not under src/). -/
inductive GenError where
  | emptyDocument
  | malformedIndentation (sourceLineNumber : Nat)
  | sizeLimitExceeded
  | renderError
  | timeoutError
  | internalError
  deriving DecidableEq

/-- Modelled from the spec: the configuration surface of section 6, restricted to the
options that stages 1-3 and the limits read (the compiler is not under src/). -/
structure Config where
  indentUnit : Nat
  maxNodes : Nat
  maxDepth : Nat
  maxInputBytes : Nat

/-- Modelled from the spec: HierarchyLine of section 3 (the parser that produces it is
not under src/). -/
structure HierarchyLine where
  depth : Nat
  label : String
  sourceLineNumber : Nat
  deriving DecidableEq

/-- Modelled from the spec: TreeNode of section 3 (the tree builder is not under
src/).  The parent and the sibling index of a node are given by its position in the
children list that holds it. -/
inductive TreeNode where
  | mk (label : String) (depth : Nat) (children : List TreeNode)

/-- Modelled from the spec: GraphNode of section 3 without the box size, for which the
spec fixes no formula (the graph builder is not under src/). -/
structure GraphNode where
  id : Nat
  label : String
  depth : Nat
  deriving DecidableEq

/-- Modelled from the spec: GraphEdge of section 3; every edge is of kind
parent-child (the graph builder is not under src/). -/
structure GraphEdge where
  src : Nat
  dst : Nat
  deriving DecidableEq

/-- Modelled from the spec: section 4.1, a line is discarded when it is empty or
white space only (the parser is not under src/). -/
def isBlankLine (line : String) : Bool :=
  line.data.all isJsWhitespace

/-- Modelled from the spec: section 4.1, the width of the leading white space of a
line after every tab is expanded to the indent unit (the parser is not under src/). -/
def leadingWidth (indentUnit : Nat) : List Char → Nat
  | [] => 0
  | c :: cs =>
    if c = '\t' then indentUnit + leadingWidth indentUnit cs
    else if isJsWhitespace c then 1 + leadingWidth indentUnit cs
    else 0

/-- Modelled from the spec: section 4.1, the width divided by the indent unit and
rounded to the nearest whole unit, a half rounding up (the parser is not under
src/). -/
def depthOfWidth (indentUnit width : Nat) : Nat :=
  (2 * width + indentUnit) / (2 * indentUnit)

/-- Modelled from the spec: section 4.1, a depth is malformed when it exceeds the depth
of the preceding emitted line by more than one; the first emitted line has no
preceding line (the parser is not under src/). -/
def depthJumps (prev : Option Nat) (depth : Nat) : Bool :=
  match prev with
  | none => false
  | some p => decide (p + 1 < depth)

/-- Modelled from the spec: section 4.1, the indentation parser over the lines of the
text; prev is the depth of the preceding emitted line and lineNo the number of the
current line (the parser is not under src/). -/
def parseLines (cfg : Config) : Option Nat → Nat → List String →
    Except GenError (List HierarchyLine)
  | _, _, [] => .ok []
  | prev, lineNo, line :: rest =>
    if isBlankLine line then parseLines cfg prev (lineNo + 1) rest
    else
      let depth := depthOfWidth cfg.indentUnit (leadingWidth cfg.indentUnit line.data)
      if depthJumps prev depth then .error (.malformedIndentation lineNo)
      else
        match parseLines cfg (some depth) (lineNo + 1) rest with
        | .error e => .error e
        | .ok more =>
          .ok ({ depth := depth, label := jsTrim line, sourceLineNumber := lineNo } :: more)

/-- Modelled from the spec: section 4.1, the parser applied to a raw text (the parser
is not under src/). -/
def parseText (cfg : Config) (text : String) : Except GenError (List HierarchyLine) :=
  parseLines cfg none 1 (textLines text)

/-- Modelled from the spec: an entry of the stack of open ancestors of section 4.2,
with the children appended to it so far (the tree builder is not under src/). -/
structure OpenNode where
  label : String
  depth : Nat
  children : List TreeNode

/-- Modelled from the spec: the finished TreeNode of a stack entry (the tree builder
is not under src/). -/
def OpenNode.close (n : OpenNode) : TreeNode :=
  .mk n.label n.depth n.children

/-- Modelled from the spec: appending a finished node, if there is one, as the last
child (the tree builder is not under src/). -/
def appendClosed (children : List TreeNode) : Option TreeNode → List TreeNode
  | none => children
  | some t => children ++ [t]

/-- Modelled from the spec: section 4.2, pop the stack while its top has depth at least
the depth of the current line.  A popped node is complete, and it is then that it is
stored as the last child of the entry below it, or as the last root when the stack
is empty; pending carries it to that entry (the tree builder is not under src/). -/
def popWhile (depth : Nat) :
    Option TreeNode → List OpenNode → List TreeNode → List OpenNode × List TreeNode
  | pending, [], roots => ([], appendClosed roots pending)
  | pending, top :: below, roots =>
    let top2 : OpenNode := { top with children := appendClosed top.children pending }
    if depth ≤ top2.depth then popWhile depth (some top2.close) below roots
    else (top2 :: below, roots)

/-- Modelled from the spec: section 4.2, one line of the tree builder: pop, then push
the node of the line (the tree builder is not under src/). -/
def pushLine (acc : List OpenNode × List TreeNode) (line : HierarchyLine) :
    List OpenNode × List TreeNode :=
  let popped := popWhile line.depth none acc.1 acc.2
  ({ label := line.label, depth := line.depth, children := [] } :: popped.1, popped.2)

/-- Modelled from the spec: section 4.2, the forest of a line sequence: all lines are
pushed, then every open node is popped (the tree builder is not under src/). -/
def forestOfLines (lines : List HierarchyLine) : List TreeNode :=
  let acc := lines.foldl pushLine ([], [])
  (popWhile 0 none acc.1 acc.2).2

/-- Modelled from the spec: section 4.2, the tree builder, which fails on zero lines
(the tree builder is not under src/). -/
def buildForest (lines : List HierarchyLine) : Except GenError (List TreeNode) :=
  if lines.isEmpty then .error .emptyDocument else .ok (forestOfLines lines)

mutual
/-- Modelled from the spec: the number of nodes of a tree (the graph builder is not
under src/). -/
def sizeNode : TreeNode → Nat
  | .mk _ _ children => 1 + sizeForest children
/-- Modelled from the spec: the number of nodes of a forest (the graph builder is not
under src/). -/
def sizeForest : List TreeNode → Nat
  | [] => 0
  | t :: ts => sizeNode t + sizeForest ts
end

/-- Modelled from the spec: section 4.3, the edge that enters a node: one edge from its
parent, none for a root (the graph builder is not under src/). -/
def edgeInto (parent : Option Nat) (id : Nat) : List GraphEdge :=
  match parent with
  | none => []
  | some p => [{ src := p, dst := id }]

mutual
/-- Modelled from the spec: section 4.3, pre-order lowering of a tree whose root gets
the id next: the node, then its children in order (the graph builder is not under
src/). -/
def lowerNode (parent : Option Nat) (next : Nat) : TreeNode →
    List GraphNode × List GraphEdge
  | .mk label depth children =>
    let sub := lowerForest (some next) (next + 1) children
    ({ id := next, label := label, depth := depth } :: sub.1, edgeInto parent next ++ sub.2)
/-- Modelled from the spec: section 4.3, pre-order lowering of a list of sibling trees;
ids are sequential (the graph builder is not under src/). -/
def lowerForest (parent : Option Nat) (next : Nat) : List TreeNode →
    List GraphNode × List GraphEdge
  | [] => ([], [])
  | t :: ts =>
    let first := lowerNode parent next t
    let others := lowerForest parent (next + first.1.length) ts
    (first.1 ++ others.1, first.2 ++ others.2)
end

/-- Modelled from the spec: what a completed request holds after stage 3: the forest,
the graph and the two counts surfaced to the caller (the orchestrator is not under
src/). -/
structure Compiled where
  lines : List HierarchyLine
  forest : List TreeNode
  nodes : List GraphNode
  edges : List GraphEdge
  nodeCount : Nat
  edgeCount : Nat

/-- Modelled from the spec: the largest depth among the nodes (the orchestrator is not
under src/). -/
def maxDepthOf (nodes : List GraphNode) : Nat :=
  nodes.foldl (fun m n => max m n.depth) 0

/-- Modelled from the spec: section 4.7, the orchestrator up to the end of lowering:
byte ceiling, parser, tree builder, graph builder, node and depth ceilings (the
orchestrator is not under src/). -/
def compile (cfg : Config) (text : String) : Except GenError Compiled :=
  if cfg.maxInputBytes < text.utf8ByteSize then .error .sizeLimitExceeded
  else
    match parseText cfg text with
    | .error e => .error e
    | .ok lines =>
      match buildForest lines with
      | .error e => .error e
      | .ok forest =>
        let graph := lowerForest none 0 forest
        if cfg.maxNodes < graph.1.length then .error .sizeLimitExceeded
        else if cfg.maxDepth < maxDepthOf graph.1 then .error .sizeLimitExceeded
        else
          .ok { lines := lines, forest := forest, nodes := graph.1, edges := graph.2,
                nodeCount := graph.1.length, edgeCount := graph.2.length }

/-- Modelled from the spec: the default configuration, four spaces or one tab per
level (the orchestrator is not under src/; the ceilings are placeholders). -/
def defaultConfig : Config :=
  { indentUnit := 4, maxNodes := 1000, maxDepth := 64, maxInputBytes := 1000000 }

/-- Number of incoming edges of a node. -/
def inDegree (edges : List GraphEdge) (id : Nat) : Nat :=
  (edges.filter (fun e => e.dst == id)).length

/-- What a lowering that starts at the id next must satisfy: size nodes are produced,
the edges and the parentless roots add up to the nodes, every edge enters a node of
the block of ids, and the entered ids increase strictly along the edge list. -/
structure LowerOk (next size roots : Nat) (out : List GraphNode × List GraphEdge) :
    Prop where
  nodes_length : out.1.length = size
  edges_length : out.2.length + roots = size
  dst_range : ∀ e ∈ out.2, next ≤ e.dst ∧ e.dst < next + size
  dst_sorted : (out.2.map (fun e => e.dst)).Pairwise (fun a b => a < b)

/-- Number of roots that a list of sibling trees contributes: none below a parent. -/
def rootCount (parent : Option Nat) (count : Nat) : Nat :=
  match parent with
  | none => count
  | some _ => 0

/-- The lines at depth 0. -/
def depthZeroLines (lines : List HierarchyLine) : List HierarchyLine :=
  lines.filter (fun l => l.depth == 0)

/-- Number of nodes held by the stack of open ancestors: every entry and the children
stored in it so far. -/
def stackSize : List OpenNode → Nat
  | [] => 0
  | n :: below => 1 + sizeForest n.children + stackSize below

/-- Number of nodes of a popped node that is on its way to its parent. -/
def pendingSize : Option TreeNode → Nat
  | none => 0
  | some t => sizeNode t

/-- The stack is not empty and its bottom entry is at depth 0. -/
def bottomAtZero (stack : List OpenNode) : Prop :=
  stack.getLast?.map (fun n => n.depth) = some 0

/-! ## Concrete runs used below -/

/-- A success body of the endpoint contract. -/
def sampleSuccessData : JsVal :=
  .obj [("success", .bool true), ("image_url", .str "/static/flowchart_1.png"),
        ("nodes", .num 4), ("edges", .num 3), ("mermaid", .str "graph TD")]

/-- A failure body of the endpoint contract. -/
def sampleFailureData : JsVal :=
  .obj [("success", .bool false), ("error", .str "Indentation jump at line 3")]

/-- An outside world whose endpoint answers every request with the given body. -/
def envAnswering (data : JsVal) : Env :=
  { net := fun _ => .resolved { json := some data, blob := some [137, 80, 78, 71] },
    now := 1700000000000, freshObjectUrl := "blob:flowchart" }

/-- An outside world whose network is down. -/
def envOffline : Env :=
  { net := fun _ => .rejected, now := 1700000000000, freshObjectUrl := "blob:flowchart" }

/-- The component after the user typed the scenario text. -/
def typedState : State :=
  { inputText := "Root\n    A\n    B\n        C", loading := false, result := none,
    error := .str "" }

/-- The component after the user typed a text with white space around it. -/
def paddedState : State :=
  { inputText := "  Root\n    A \n", loading := false, result := none, error := .str "" }

/-- The component with white space only in the text area and an earlier result on
display. -/
def blankState : State :=
  { inputText := "  \n\t ", loading := false,
    result := some { imageUrl := "http://localhost:5000/static/flowchart_0.png",
                     nodes := .num 2, edges := .num 1, mermaid := .str "graph TD" },
    error := .str "" }

/-- The component after the success branch (lines 74-80) has stored the sample success
body. -/
def storedSuccessState : State :=
  { inputText := "Root\n    A\n    B\n        C", loading := false,
    result := some { imageUrl := "http://localhost:5000/static/flowchart_1.png",
                     nodes := .num 4, edges := .num 3, mermaid := .str "graph TD" },
    error := .str "" }

/-- The text of scenario A of the specification. -/
def scenarioAText : String := "Root\n    A\n    B\n        C"

/-- What the pipeline holds for scenario A after lowering. -/
def scenarioACompiled : Compiled :=
  { lines := [{ depth := 0, label := "Root", sourceLineNumber := 1 },
              { depth := 1, label := "A", sourceLineNumber := 2 },
              { depth := 1, label := "B", sourceLineNumber := 3 },
              { depth := 2, label := "C", sourceLineNumber := 4 }],
    forest := [.mk "Root" 0 [.mk "A" 1 [], .mk "B" 1 [.mk "C" 2 []]]],
    nodes := [{ id := 0, label := "Root", depth := 0 }, { id := 1, label := "A", depth := 1 },
              { id := 2, label := "B", depth := 1 }, { id := 3, label := "C", depth := 2 }],
    edges := [{ src := 0, dst := 1 }, { src := 0, dst := 2 }, { src := 2, dst := 3 }],
    nodeCount := 4,
    edgeCount := 3 }

/-- A text whose first line is indented and whose second line is not. -/
def indentedFirstText : String := "    A\nB"

/-- What the pipeline holds for the text with the indented first line after lowering:
both lines are roots, since the second line has no earlier line of smaller depth. -/
def indentedFirstCompiled : Compiled :=
  { lines := [{ depth := 1, label := "A", sourceLineNumber := 1 },
              { depth := 0, label := "B", sourceLineNumber := 2 }],
    forest := [.mk "A" 1 [], .mk "B" 0 []],
    nodes := [{ id := 0, label := "A", depth := 1 }, { id := 1, label := "B", depth := 0 }],
    edges := [],
    nodeCount := 2,
    edgeCount := 0 }

/-! ## Layout, diagram source and the whole request -/

/-- Modelled from the spec: the constants of the layout engine and of the renderer
named in sections 4.3, 4.4 and 4.6 (the layout engine is not under src/).  The spec
fixes no formula for the box size, so the width as a function of the label length on
a line and the height as a function of the wrapped line count are parameters. -/
structure LayoutConfig where
  boxWidthOf : Nat → Nat
  boxHeightOf : Nat → Nat
  wrapWidth : Nat
  horizontalPadding : Nat
  siblingSpacing : Nat
  rootMargin : Nat
  rowHeight : Nat
  verticalSpacing : Nat
  canvasMargin : Nat
  canvasMinWidth : Nat
  canvasMinHeight : Nat
  maxCanvasPixels : Nat

/-- Modelled from the spec: LayoutBox of section 3, in canvas pixels (the layout engine
is not under src/). -/
structure LayoutBox where
  nodeId : Nat
  x : Nat
  y : Nat
  width : Nat
  height : Nat
  deriving DecidableEq

/-- Modelled from the spec: section 4.3, the number of lines a label wraps to at the
character budget, at least one (the graph builder is not under src/). -/
def wrappedLineCount (lc : LayoutConfig) (label : String) : Nat :=
  max 1 ((label.length + lc.wrapWidth - 1) / lc.wrapWidth)

/-- Modelled from the spec: section 4.3, the box width of a label, from the length of
its longest wrapped line (the graph builder is not under src/). -/
def boxWidth (lc : LayoutConfig) (label : String) : Nat :=
  lc.boxWidthOf (min label.length lc.wrapWidth)

/-- Modelled from the spec: section 4.3, the box height of a label, from its wrapped
line count (the graph builder is not under src/). -/
def boxHeight (lc : LayoutConfig) (label : String) : Nat :=
  lc.boxHeightOf (wrappedLineCount lc label)

mutual
/-- Modelled from the spec: section 4.4, the subtree width: the box width plus the
horizontal padding for a leaf, the width of the children and not less than the own
box width for an internal node (the layout engine is not under src/). -/
def subtreeWidth (lc : LayoutConfig) : TreeNode → Nat
  | .mk label _ children =>
    if children.isEmpty then boxWidth lc label + lc.horizontalPadding
    else max (boxWidth lc label) (siblingsWidth lc children)
/-- Modelled from the spec: section 4.4, the sum of the subtree widths of siblings plus
the spacing between neighbours (the layout engine is not under src/). -/
def siblingsWidth (lc : LayoutConfig) : List TreeNode → Nat
  | [] => 0
  | t :: ts =>
    subtreeWidth lc t + (if ts.isEmpty then 0 else lc.siblingSpacing + siblingsWidth lc ts)
end

mutual
/-- Modelled from the spec: section 4.4, the boxes of a tree whose left edge is left and
whose root has the id next: a leaf sits at the cursor, an internal node is centred
over the span of its children, which start at its left edge; y depends on the depth
only (the layout engine is not under src/). -/
def placeNode (lc : LayoutConfig) (left next : Nat) : TreeNode → List LayoutBox
  | .mk label depth children =>
    let x :=
      if children.isEmpty then left
      else left + (siblingsWidth lc children - boxWidth lc label) / 2
    { nodeId := next, x := x, y := depth * (lc.rowHeight + lc.verticalSpacing),
      width := boxWidth lc label, height := boxHeight lc label } ::
      placeSiblings lc left (next + 1) children
/-- Modelled from the spec: section 4.4, siblings are placed from left to right in input
order, whatever their widths (the layout engine is not under src/). -/
def placeSiblings (lc : LayoutConfig) (left next : Nat) : List TreeNode → List LayoutBox
  | [] => []
  | t :: ts =>
    placeNode lc left next t ++
      placeSiblings lc (left + subtreeWidth lc t + lc.siblingSpacing) (next + sizeNode t) ts
end

/-- Modelled from the spec: section 4.4, the roots are laid out one by one and placed
from left to right with the margin between roots (the layout engine is not under
src/). -/
def placeRoots (lc : LayoutConfig) (left next : Nat) : List TreeNode → List LayoutBox
  | [] => []
  | t :: ts =>
    placeNode lc left next t ++
      placeRoots lc (left + subtreeWidth lc t + lc.rootMargin) (next + sizeNode t) ts

/-- Modelled from the spec: section 4.4, the canvas: the bounding box of all boxes plus
the margin, and not less than the configured minimum (the layout engine is not under
src/). -/
def canvasSize (lc : LayoutConfig) (boxes : List LayoutBox) : Nat × Nat :=
  (max lc.canvasMinWidth
      (boxes.foldl (fun m b => max m (b.x + b.width)) 0 + lc.canvasMargin),
   max lc.canvasMinHeight
      (boxes.foldl (fun m b => max m (b.y + b.height)) 0 + lc.canvasMargin))

/-- Modelled from the spec: section 4.5, the line of a node: its id and its quoted
label, the label between square brackets (the emitter is not under src/). -/
def emitNodeLine (n : GraphNode) : String :=
  toString n.id ++ "[" ++ String.mk [Char.ofNat 34] ++ n.label ++
    String.mk [Char.ofNat 34] ++ "]"

/-- Modelled from the spec: section 4.5, the line of an edge (the emitter is not under
src/). -/
def emitEdgeLine (e : GraphEdge) : String :=
  toString e.src ++ " --> " ++ toString e.dst

/-- Modelled from the spec: section 4.5, the diagram source: the node lines in id order,
then the edge lines in declaration order (the emitter is not under src/). -/
def emitDiagram (nodes : List GraphNode) (edges : List GraphEdge) : String :=
  String.intercalate "\n" (nodes.map emitNodeLine ++ edges.map emitEdgeLine)

/-- Modelled from the spec: sections 4.7 and 5, what a request meets outside itself:
the artifact store with the handles in use, the number of the next handle, and
whether the wall-clock budget runs out during the request (the orchestrator is not
under src/). -/
structure Ambient where
  storedHandles : List String
  nextHandle : Nat
  overBudget : Bool

/-- Modelled from the spec: section 4.7, the payload of a completed request: the two
counts, the diagram source, the layout with its canvas, and the handle of the image
(the orchestrator is not under src/). -/
structure Generated where
  nodeCount : Nat
  edgeCount : Nat
  diagramSource : String
  layout : List LayoutBox
  canvasWidth : Nat
  canvasHeight : Nat
  imageHandle : String

/-- Modelled from the spec: the handle under which the image of a request is stored
(the orchestrator is not under src/). -/
def handleOf (n : Nat) : String :=
  "/static/flowchart_" ++ toString n ++ ".png"

/-- Modelled from the spec: section 4.7, one request: stages 1-3 with the limits, the
layout, the emitter, the ceiling of the renderer on the canvas, the wall-clock
budget, and the insertion of the image under a new handle (the orchestrator is not
under src/; the painted pixels are outside the model). -/
def generate (cfg : Config) (lc : LayoutConfig) (amb : Ambient) (text : String) :
    Except GenError (Generated × Ambient) :=
  match compile cfg text with
  | .error e => .error e
  | .ok c =>
    let boxes := placeRoots lc 0 0 c.forest
    let canvas := canvasSize lc boxes
    if lc.maxCanvasPixels < canvas.1 * canvas.2 then .error .renderError
    else if amb.overBudget then .error .timeoutError
    else
      .ok ({ nodeCount := c.nodeCount, edgeCount := c.edgeCount,
             diagramSource := emitDiagram c.nodes c.edges, layout := boxes,
             canvasWidth := canvas.1, canvasHeight := canvas.2,
             imageHandle := handleOf amb.nextHandle },
           { amb with storedHandles := amb.storedHandles ++ [handleOf amb.nextHandle],
                      nextHandle := amb.nextHandle + 1 })

/-- Modelled from the spec: section 6, the success response for a completed request
(the endpoint is not under src/). -/
def successBody (g : Generated) : JsVal :=
  .obj [("success", .bool true), ("image_url", .str g.imageHandle),
        ("nodes", .num g.nodeCount), ("edges", .num g.edgeCount),
        ("mermaid", .str g.diagramSource)]

/-- Modelled from the spec: layout constants used in the concrete runs (the layout
engine is not under src/; the spec leaves the values open). -/
def sampleLayoutConfig : LayoutConfig :=
  { boxWidthOf := fun n => 10 * n + 20, boxHeightOf := fun n => 24 * n + 16,
    wrapWidth := 24, horizontalPadding := 20, siblingSpacing := 30, rootMargin := 60,
    rowHeight := 64, verticalSpacing := 40, canvasMargin := 50, canvasMinWidth := 3000,
    canvasMinHeight := 2400, maxCanvasPixels := 100000000 }

/-- An idle service with an empty artifact store. -/
def freshAmbient : Ambient :=
  { storedHandles := [], nextHandle := 0, overBudget := false }

/-- Number of lines of a text that are neither empty nor white space only. -/
def nonBlankLineCount (text : String) : Nat :=
  ((textLines text).filter (fun l => !isBlankLine l)).length

/-- The first request for scenario A on an idle service, and the service after it. -/
def scenarioAFirstRun : Generated × Ambient :=
  ({ nodeCount := 4, edgeCount := 3,
     diagramSource := emitDiagram scenarioACompiled.nodes scenarioACompiled.edges,
     layout := [{ nodeId := 0, x := 35, y := 0, width := 60, height := 40 },
                { nodeId := 1, x := 0, y := 104, width := 30, height := 40 },
                { nodeId := 2, x := 90, y := 104, width := 30, height := 40 },
                { nodeId := 3, x := 80, y := 208, width := 30, height := 40 }],
     canvasWidth := 3000, canvasHeight := 2400,
     imageHandle := "/static/flowchart_0.png" },
   { storedHandles := ["/static/flowchart_0.png"], nextHandle := 1, overBudget := false })

/-! ## Sequences of user events -/

/-- What the user can do to the component: edit the text area (line 458) or press one
of the four buttons; a button press comes with what the outside world answers. -/
inductive Event where
  | changeText (value : String)
  | clickGenerate (env : Env)
  | clickDownload (env : Env)
  | clickLoadExample
  | clickClearAll

/-- One event applied to the component and the browser. -/
def applyEvent (p : State × Browser) : Event → State × Browser
  | .changeText value => (setInputText value p.1, p.2)
  | .clickGenerate env => ((handleGenerate env p.1 p.2).state, (handleGenerate env p.1 p.2).browser)
  | .clickDownload env => ((handleDownload env p.1 p.2).state, (handleDownload env p.1 p.2).browser)
  | .clickLoadExample => (loadExample p.1, p.2)
  | .clickClearAll => (clearAll p.1, p.2)

/-- A sequence of events applied in order. -/
def runEvents (events : List Event) (p : State × Browser) : State × Browser :=
  events.foldl applyEvent p

/-- Every child of document.body was created before the next node id: the ids stand
for the identity of the nodes, and createElement makes a node that is none of the
existing ones. -/
def domWellFormed (b : Browser) : Prop :=
  ∀ e ∈ b.bodyChildren, e.nodeId < b.nextNodeId

/-- An outside world whose responses have a body that cannot be read. -/
def downloadEnvBroken : Env :=
  { net := fun _ => .resolved { json := none, blob := none }, now := 1700000000000,
    freshObjectUrl := "blob:flowchart" }

/-- A page whose body already holds the mount point of the application. -/
def pageBrowser : Browser :=
  { requests := [], consoleErrors := [],
    bodyChildren := [{ nodeId := 0, tag := "div", href := "", download := "" }],
    objectUrls := [], clicked := [], nextNodeId := 1 }

/-! ## Lemmas on trim -/

theorem string_mk_eq_empty_iff (cs : List Char) : String.mk cs = "" ↔ cs = [] := by
  constructor
  · intro h
    have h2 := congrArg String.data h
    simpa using h2
  · intro h
    subst h
    rfl

theorem trimEndChars_eq_nil_iff (cs : List Char) :
    trimEndChars cs = [] ↔ ∀ c ∈ cs, isJsWhitespace c = true := by
  unfold trimEndChars
  rw [List.reverse_eq_nil_iff, List.dropWhile_eq_nil_iff]
  simp

theorem trimStartChars_all_iff (cs : List Char) :
    (∀ c ∈ trimStartChars cs, isJsWhitespace c = true) ↔
      ∀ c ∈ cs, isJsWhitespace c = true := by
  unfold trimStartChars
  induction cs with
  | nil => simp
  | cons c cs ih =>
    by_cases hc : isJsWhitespace c = true
    · simp [List.dropWhile_cons, hc, ih]
    · simp [List.dropWhile_cons, hc]

/-- The trim of a string is empty exactly when the string is empty or white space
only. -/
theorem jsTrim_eq_empty_iff (s : String) :
    jsTrim s = "" ↔ ∀ c ∈ s.data, isJsWhitespace c = true := by
  unfold jsTrim
  rw [string_mk_eq_empty_iff, trimEndChars_eq_nil_iff, trimStartChars_all_iff]

theorem truthy_str_trim (s : String) :
    truthy (.str (jsTrim s)) = true ↔ jsTrim s ≠ "" := by
  simp [truthy]

theorem exampleText_not_blank : jsTrim exampleText ≠ "" := by
  intro h
  rw [jsTrim_eq_empty_iff] at h
  have hmem : 'P' ∈ exampleText.data := by
    have : exampleText.data.head? = some 'P' := by decide
    exact List.mem_of_mem_head? this
  have := h 'P' hmem
  revert this
  decide

/-! ## Lemmas on the request body -/

theorem hexValue_hexDigit (k : Nat) (h : k < 16) : hexValue (hexDigit k) = some k := by
  interval_cases k <;> decide

theorem char_eq_of_toNat (c : Char) (n : Nat) (h : c.toNat = n) : Char.ofNat n = c := by
  subst h
  exact Char.ofNat_toNat c

theorem unescapeChars_plain (c : Char) (rest : List Char) (h1 : c.toNat ≠ 34)
    (h2 : c.toNat ≠ 92) :
    unescapeChars (c :: rest) = (unescapeChars rest).map (prependChar c) := by
  rw [unescapeChars.eq_def]
  simp only [h1, h2, if_false, ne_eq, not_false_eq_true, if_true]

theorem unescapeChars_short (e d : Char) (rest : List Char) (he : e.toNat ≠ 117)
    (hd : decodeShortEscape e = some d) :
    unescapeChars (Char.ofNat 92 :: e :: rest) = (unescapeChars rest).map (prependChar d) := by
  rw [unescapeChars.eq_def]
  have h34 : (Char.ofNat 92).toNat ≠ 34 := by decide
  have h92 : (Char.ofNat 92).toNat = 92 := by decide
  simp only [h34, h92, if_false, ne_eq, not_true_eq_false, he, hd]
  rw [if_neg (by decide)]

theorem unescapeChars_hex (h1 h2 h3 h4 ch : Char) (rest : List Char)
    (hd : hexCode h1 h2 h3 h4 = some ch) :
    unescapeChars (Char.ofNat 92 :: 'u' :: h1 :: h2 :: h3 :: h4 :: rest) =
      (unescapeChars rest).map (prependChar ch) := by
  rw [unescapeChars.eq_def]
  have h34 : (Char.ofNat 92).toNat ≠ 34 := by decide
  have h92 : (Char.ofNat 92).toNat = 92 := by decide
  have hu : ('u' : Char).toNat = 117 := by decide
  simp only [h34, h92, if_false, ne_eq, not_true_eq_false, hu, if_true, hd]
  rw [if_neg (by decide)]

theorem unescapeChars_escapeChar (c : Char) (rest : List Char) :
    unescapeChars (escapeChar c ++ rest) = (unescapeChars rest).map (prependChar c) := by
  unfold escapeChar
  simp only []
  split_ifs with h1 h2 h3 h4 h5 h6 h7 h8
  · exact unescapeChars_short _ c rest (by decide)
      (by rw [← char_eq_of_toNat c 34 h1]; decide)
  · exact unescapeChars_short _ c rest (by decide)
      (by rw [← char_eq_of_toNat c 92 h2]; decide)
  · exact unescapeChars_short _ c rest (by decide)
      (by rw [← char_eq_of_toNat c 8 h3]; decide)
  · exact unescapeChars_short _ c rest (by decide)
      (by rw [← char_eq_of_toNat c 9 h4]; decide)
  · exact unescapeChars_short _ c rest (by decide)
      (by rw [← char_eq_of_toNat c 10 h5]; decide)
  · exact unescapeChars_short _ c rest (by decide)
      (by rw [← char_eq_of_toNat c 12 h6]; decide)
  · exact unescapeChars_short _ c rest (by decide)
      (by rw [← char_eq_of_toNat c 13 h7]; decide)
  · have hlt : c.toNat < 32 := h8
    have hq : c.toNat / 16 < 16 := by omega
    have hr : c.toNat % 16 < 16 := by omega
    apply unescapeChars_hex
    have h0 : hexValue '0' = some 0 := by decide
    unfold hexCode
    rw [h0, hexValue_hexDigit _ hq, hexValue_hexDigit _ hr]
    simp only []
    have : ((0 * 16 + 0) * 16 + c.toNat / 16) * 16 + c.toNat % 16 = c.toNat := by omega
    rw [this, Char.ofNat_toNat]
  · exact unescapeChars_plain c rest h1 h2

theorem unescapeChars_escapeChars (cs tail : List Char) :
    unescapeChars (escapeChars cs ++ Char.ofNat 34 :: tail) = some (cs, tail) := by
  induction cs with
  | nil =>
    rw [escapeChars, List.nil_append, unescapeChars.eq_def]
    have h : (Char.ofNat 34).toNat = 34 := by decide
    simp only [h, if_true]
  | cons c cs ih =>
    rw [escapeChars, List.append_assoc, unescapeChars_escapeChar, ih]
    rfl

/-- Reading back the body of a request gives the text that was put in. -/
theorem decodeTextObject_stringifyTextObject (inputText : String) :
    decodeTextObject (stringifyTextObject inputText) = some inputText := by
  have hdata : (stringifyTextObject inputText).data =
      textObjectOpening ++
        (escapeChars inputText.data ++ Char.ofNat 34 :: [Char.ofNat 125]) := by
    simp [stringifyTextObject, textObjectOpening, jsonQuote]
  unfold decodeTextObject
  rw [hdata]
  have hpre : textObjectOpening.isPrefixOf
      (textObjectOpening ++
        (escapeChars inputText.data ++ Char.ofNat 34 :: [Char.ofNat 125])) = true := by
    rw [List.isPrefixOf_iff_prefix]
    exact List.prefix_append _ _
  rw [if_pos hpre, List.drop_left, unescapeChars_escapeChars]
  simp

/-! ## The handlers -/

theorem readIdentifier_response (fetched : Response) :
    readIdentifier (tryBlockBindings fetched) "response" =
      .error (.referenceError "response") := by
  rfl

/-- The try block of handleGenerate always ends in an exception, after the request
has been issued and before any setter is called. -/
theorem tryGenerate_throws (env : Env) (s : State) (b : Browser) :
    ∃ e, tryGenerate env s b =
      { state := s,
        browser := { b with requests := b.requests ++ [generateRequest s.inputText] },
        thrown := some e } := by
  unfold tryGenerate
  cases hnet : env.net (generateRequest s.inputText) with
  | rejected => exact ⟨.networkError, by simp only [hnet]⟩
  | resolved fetched =>
    exact ⟨.referenceError "response", by simp only [hnet, readIdentifier_response]⟩

/-- A run of handleGenerate on a text that is not blank. -/
theorem run_of_nonblank (env : Env) (s : State) (b : Browser)
    (h : jsTrim s.inputText ≠ "") :
    ∃ e, handleGenerate env s b =
      { state := { inputText := s.inputText, loading := false, result := none,
                   error := .str msgBackend },
        browser := { b with requests := b.requests ++ [generateRequest s.inputText],
                            consoleErrors := b.consoleErrors ++ [e] },
        thrown := none } := by
  have ht : truthy (.str (jsTrim s.inputText)) = true := (truthy_str_trim _).2 h
  obtain ⟨e, he⟩ := tryGenerate_throws env
    (setResult none (setError (.str "") (setLoading true s))) b
  refine ⟨e, ?_⟩
  unfold handleGenerate
  simp only [ht, Bool.not_true, Bool.false_eq_true, if_false]
  rw [he]
  rfl

/-- A run of handleGenerate on a blank text. -/
theorem run_of_blank (env : Env) (s : State) (b : Browser)
    (h : jsTrim s.inputText = "") :
    handleGenerate env s b =
      { state := { s with error := .str msgEmptyInput }, browser := b, thrown := none } := by
  have ht : truthy (.str (jsTrim s.inputText)) = false := by
    rw [h]
    rfl
  unfold handleGenerate
  simp only [ht, Bool.not_false, if_true]
  rfl

theorem localhost_append_ne_empty (u : String) : "http://localhost:5000" ++ u ≠ "" := by
  intro h
  have h2 := congrArg String.length h
  rw [String.length_append] at h2
  have h3 : "http://localhost:5000".length = 21 := by decide
  have h4 : "".length = 0 := by decide
  omega

/-- A run of handleDownload on a result whose imageUrl is not empty issues one GET
for that URL, whatever the network answers. -/
theorem handleDownload_requests (env : Env) (s : State) (b : Browser) (r : GenResult)
    (hr : s.result = some r) (hu : r.imageUrl ≠ "") :
    (handleDownload env s b).browser.requests =
      b.requests ++ [downloadRequest r.imageUrl] := by
  have ht : truthy (.str r.imageUrl) = true := by simp [truthy, hu]
  unfold handleDownload
  rw [hr]
  simp only [ht, if_true]
  unfold tryDownload
  cases hnet : env.net (downloadRequest r.imageUrl) with
  | rejected => simp only [hnet, catchDownload]
  | resolved response =>
    cases hb : response.blob with
    | none => simp only [hnet, hb, catchDownload]
    | some bytes => simp only [hnet, hb]

/-- What the success branch stores for a body whose success is truthy. -/
theorem processData_success (data v : JsVal) (u : String) (s : State)
    (hs : getProp data "success" = .ok v) (ht : truthy v = true)
    (hu : getProp data "image_url" = .ok (.str u)) :
    ∃ fields, data = .obj fields ∧
      processData data s = .ok (setResult (some
          { imageUrl := "http://localhost:5000" ++ u,
            nodes := lookupField "nodes" fields,
            edges := lookupField "edges" fields,
            mermaid := lookupField "mermaid" fields }) s) := by
  cases data with
  | obj fields =>
    refine ⟨fields, rfl, ?_⟩
    simp only [getProp, Except.ok.injEq] at hs hu
    unfold processData successResult
    simp only [getProp, bind, Except.bind, hs, ht, if_true, hu, toJsString, pure, Except.pure,
      setResult]
  | undefined => simp [getProp] at hs
  | null => simp [getProp] at hs
  | bool x => simp [getProp] at hs; subst hs; simp [truthy] at ht
  | num x => simp [getProp] at hs; subst hs; simp [truthy] at ht
  | str x => simp [getProp] at hs; subst hs; simp [truthy] at ht
  | arr x => simp [getProp] at hs; subst hs; simp [truthy] at ht

/-! ## Claims -/

/-- C1 (the code departs from the claim): on the text of scenario A and a well-formed
success body, handleGenerate ends with result null and the backend message in error,
with loading false and a ReferenceError for response on the console, while the
success branch of lines 74-80, given the same body, stores the result the claim
describes. -/
theorem handleGenerate_loses_success_response :
    (handleGenerate (envAnswering sampleSuccessData) typedState emptyBrowser).state.result
        = none ∧
    (handleGenerate (envAnswering sampleSuccessData) typedState emptyBrowser).state.error
        = .str msgBackend ∧
    (handleGenerate (envAnswering sampleSuccessData) typedState emptyBrowser).state.loading
        = false ∧
    (handleGenerate (envAnswering sampleSuccessData) typedState
        emptyBrowser).browser.consoleErrors = [.referenceError "response"] ∧
    processData sampleSuccessData typedState = .ok storedSuccessState := by
  refine ⟨rfl, rfl, rfl, rfl, rfl⟩

/-- C2: for a text whose trim is not empty, handleGenerate issues exactly one request,
a POST to /generate with the header Content-Type: application/json and the body
JSON.stringify of the object with the single field text; reading that body back
gives inputText exactly as entered. -/
theorem handleGenerate_issues_one_post (env : Env) (s : State) (b : Browser)
    (h : jsTrim s.inputText ≠ "") :
    (handleGenerate env s b).browser.requests =
      b.requests ++
        [{ method := "POST", url := "/generate",
           headers := [("Content-Type", "application/json")],
           body := some (stringifyTextObject s.inputText) }] ∧
    decodeTextObject (stringifyTextObject s.inputText) = some s.inputText := by
  obtain ⟨e, he⟩ := run_of_nonblank env s b h
  rw [he]
  exact ⟨rfl, decodeTextObject_stringifyTextObject s.inputText⟩

theorem handleGenerate_issues_one_post_witness :
    jsTrim paddedState.inputText ≠ "" ∧
    (handleGenerate envOffline paddedState emptyBrowser).browser.requests =
      emptyBrowser.requests ++
        [{ method := "POST", url := "/generate",
           headers := [("Content-Type", "application/json")],
           body := some (stringifyTextObject paddedState.inputText) }] ∧
    decodeTextObject (stringifyTextObject paddedState.inputText) =
      some paddedState.inputText :=
  ⟨by decide, handleGenerate_issues_one_post envOffline paddedState emptyBrowser (by decide)⟩

/-- C3 (the code departs from the claim): on the text of scenario A and a failure body
with an error string, handleGenerate ends with result null and loading false, but
error holds the backend message and not the error string of the body, which the
failure branch of line 82 would have stored. -/
theorem handleGenerate_loses_failure_message :
    (handleGenerate (envAnswering sampleFailureData) typedState emptyBrowser).state.error
        = .str msgBackend ∧
    (handleGenerate (envAnswering sampleFailureData) typedState emptyBrowser).state.result
        = none ∧
    (handleGenerate (envAnswering sampleFailureData) typedState emptyBrowser).state.loading
        = false ∧
    processData sampleFailureData typedState =
      .ok { typedState with error := .str "Indentation jump at line 3" } ∧
    msgBackend ≠ "Indentation jump at line 3" := by
  refine ⟨rfl, rfl, rfl, rfl, by decide⟩

/-- C4: for a text whose trim is empty, handleGenerate sets error to the message of
line 54, issues no request and throws nothing, and leaves inputText, loading, result
and the outside world unchanged. -/
theorem handleGenerate_blank_input (env : Env) (s : State) (b : Browser)
    (h : jsTrim s.inputText = "") :
    (handleGenerate env s b).state.error =
      .str "Please enter some text to generate a flowchart" ∧
    (handleGenerate env s b).browser.requests = b.requests ∧
    (handleGenerate env s b).browser = b ∧
    (handleGenerate env s b).state.inputText = s.inputText ∧
    (handleGenerate env s b).state.loading = s.loading ∧
    (handleGenerate env s b).state.result = s.result ∧
    (handleGenerate env s b).thrown = none := by
  rw [run_of_blank env s b h]
  exact ⟨rfl, rfl, rfl, rfl, rfl, rfl, rfl⟩

theorem handleGenerate_blank_input_witness :
    jsTrim blankState.inputText = "" ∧
    (handleGenerate envOffline blankState emptyBrowser).state.error =
      .str "Please enter some text to generate a flowchart" ∧
    (handleGenerate envOffline blankState emptyBrowser).browser.requests =
      emptyBrowser.requests ∧
    (handleGenerate envOffline blankState emptyBrowser).browser = emptyBrowser ∧
    (handleGenerate envOffline blankState emptyBrowser).state.inputText =
      blankState.inputText ∧
    (handleGenerate envOffline blankState emptyBrowser).state.loading =
      blankState.loading ∧
    (handleGenerate envOffline blankState emptyBrowser).state.result = blankState.result ∧
    (handleGenerate envOffline blankState emptyBrowser).thrown = none :=
  ⟨by decide, handleGenerate_blank_input envOffline blankState emptyBrowser (by decide)⟩

/-- C5: for a text that is not blank, when fetch rejects or the body of the response
cannot be decoded as JSON, handleGenerate ends with the backend message of line 85
in error, result null and loading false, and no exception leaves it. -/
theorem handleGenerate_request_failure (env : Env) (s : State) (b : Browser)
    (h : jsTrim s.inputText ≠ "")
    (_hfail : env.net (generateRequest s.inputText) = .rejected ∨
      ∃ r, env.net (generateRequest s.inputText) = .resolved r ∧ r.json = none) :
    (handleGenerate env s b).state.error =
      .str "Unable to connect to backend. Ensure Python server is running on http://localhost:5000" ∧
    (handleGenerate env s b).state.result = none ∧
    (handleGenerate env s b).state.loading = false ∧
    (handleGenerate env s b).thrown = none := by
  obtain ⟨e, he⟩ := run_of_nonblank env s b h
  rw [he]
  exact ⟨rfl, rfl, rfl, rfl⟩

theorem handleGenerate_request_failure_witness :
    jsTrim typedState.inputText ≠ "" ∧
    (envOffline.net (generateRequest typedState.inputText) = .rejected ∨
      ∃ r, envOffline.net (generateRequest typedState.inputText) = .resolved r ∧
        r.json = none) ∧
    (handleGenerate envOffline typedState emptyBrowser).state.error =
      .str "Unable to connect to backend. Ensure Python server is running on http://localhost:5000" ∧
    (handleGenerate envOffline typedState emptyBrowser).state.result = none ∧
    (handleGenerate envOffline typedState emptyBrowser).state.loading = false ∧
    (handleGenerate envOffline typedState emptyBrowser).thrown = none :=
  ⟨by decide, Or.inl rfl,
    handleGenerate_request_failure envOffline typedState emptyBrowser (by decide)
      (Or.inl rfl)⟩

/-- C6 (refuted as stated): exampleText does not have exactly one line without leading
white space. -/
theorem exampleText_not_single_root :
    ¬ ((topLevelLines exampleText).length = 1) := by
  decide

/-- C6 (amended): exampleText has 41 lines, exactly four of them without leading white
space (Project Management System, Planning Phase, Execution Phase and Monitoring
Phase, in this order), and each of the other 37 lines is indented. -/
theorem exampleText_four_roots :
    topLevelLines exampleText =
      ["Project Management System", "Planning Phase", "Execution Phase",
       "Monitoring Phase"] ∧
    (textLines exampleText).length = 41 ∧
    ((textLines exampleText).filter hasLeadingWhitespace).length = 37 ∧
    (∀ l ∈ textLines exampleText,
      l ∈ topLevelLines exampleText ∨ hasLeadingWhitespace l = true) := by
  refine ⟨by decide, by decide, by decide, ?_⟩
  intro l hl
  cases hw : hasLeadingWhitespace l with
  | true => exact Or.inr rfl
  | false =>
    left
    unfold topLevelLines
    rw [List.mem_filter]
    exact ⟨hl, by simp [hw]⟩

/-- C7 (refuted as stated): for the result that the success branch stores for a body
whose image_url is /static/flowchart_1.png, the GET of handleDownload does not go to
that image_url. -/
theorem handleDownload_not_bare_image_url :
    getProp sampleSuccessData "image_url" = .ok (.str "/static/flowchart_1.png") ∧
    processData sampleSuccessData typedState = .ok storedSuccessState ∧
    ¬ ((handleDownload (envAnswering sampleSuccessData) storedSuccessState
          emptyBrowser).browser.requests =
        [downloadRequest "/static/flowchart_1.png"]) := by
  refine ⟨rfl, rfl, ?_⟩
  decide

/-- C7 (amended): the result stored by the success branch for a body with a truthy
success and a string image_url has as imageUrl the string http://localhost:5000
followed by that image_url; handleDownload then issues exactly one GET, to that
imageUrl, which is also the src of the img element once loading is false.  In any
state with a result whose imageUrl is not empty, handleDownload issues exactly one
GET, to result.imageUrl, and the img element shows the same URL. -/
theorem handleDownload_fetches_stored_url (env : Env) (b : Browser) (s : State)
    (data v : JsVal) (u : String)
    (hs : getProp data "success" = .ok v) (ht : truthy v = true)
    (hu : getProp data "image_url" = .ok (.str u)) :
    (∃ s2 r, processData data s = .ok s2 ∧ s2.result = some r ∧
      r.imageUrl = "http://localhost:5000" ++ u ∧
      (handleDownload env s2 b).browser.requests =
        b.requests ++ [{ method := "GET", url := "http://localhost:5000" ++ u,
                         headers := [], body := none }] ∧
      displayedImageSrc (setLoading false s2) = some ("http://localhost:5000" ++ u)) ∧
    (∀ (s3 : State) (r3 : GenResult), s3.result = some r3 → r3.imageUrl ≠ "" →
      (handleDownload env s3 b).browser.requests =
        b.requests ++ [{ method := "GET", url := r3.imageUrl, headers := [],
                         body := none }] ∧
      (s3.loading = false → displayedImageSrc s3 = some r3.imageUrl)) := by
  constructor
  · obtain ⟨fields, _, hp⟩ := processData_success data v u s hs ht hu
    refine ⟨_, _, hp, rfl, rfl, ?_, rfl⟩
    exact handleDownload_requests env _ b
      { imageUrl := "http://localhost:5000" ++ u,
        nodes := lookupField "nodes" fields,
        edges := lookupField "edges" fields,
        mermaid := lookupField "mermaid" fields } rfl (localhost_append_ne_empty u)
  · intro s3 r3 h3 hne
    refine ⟨handleDownload_requests env s3 b r3 h3 hne, ?_⟩
    intro hl
    simp [displayedImageSrc, hl, h3]

theorem handleDownload_fetches_stored_url_witness :
    getProp sampleSuccessData "success" = .ok (.bool true) ∧
    truthy (.bool true) = true ∧
    getProp sampleSuccessData "image_url" = .ok (.str "/static/flowchart_1.png") ∧
    ((∃ s2 r, processData sampleSuccessData typedState = .ok s2 ∧ s2.result = some r ∧
      r.imageUrl = "http://localhost:5000" ++ "/static/flowchart_1.png" ∧
      (handleDownload (envAnswering sampleSuccessData) s2 emptyBrowser).browser.requests =
        emptyBrowser.requests ++
          [{ method := "GET", url := "http://localhost:5000" ++ "/static/flowchart_1.png",
             headers := [], body := none }] ∧
      displayedImageSrc (setLoading false s2) =
        some ("http://localhost:5000" ++ "/static/flowchart_1.png")) ∧
    (∀ (s3 : State) (r3 : GenResult), s3.result = some r3 → r3.imageUrl ≠ "" →
      (handleDownload (envAnswering sampleSuccessData) s3 emptyBrowser).browser.requests =
        emptyBrowser.requests ++
          [{ method := "GET", url := r3.imageUrl, headers := [], body := none }] ∧
      (s3.loading = false → displayedImageSrc s3 = some r3.imageUrl))) :=
  ⟨rfl, rfl, rfl,
    handleDownload_fetches_stored_url (envAnswering sampleSuccessData) emptyBrowser
      typedState sampleSuccessData (.bool true) "/static/flowchart_1.png" rfl rfl rfl⟩

/-- C8: from every state, loadExample gives inputText = exampleText, error = the empty
string and result = null and keeps loading; the trim of the new inputText is not
empty, so the Generate button is disabled exactly when loading is true. -/
theorem loadExample_effect (s : State) :
    (loadExample s).inputText = exampleText ∧
    (loadExample s).error = .str "" ∧
    (loadExample s).result = none ∧
    (loadExample s).loading = s.loading ∧
    jsTrim (loadExample s).inputText ≠ "" ∧
    generateDisabled (loadExample s) = s.loading ∧
    (generateDisabled (loadExample s) = false ↔ s.loading = false) := by
  have ht : truthy (.str (jsTrim exampleText)) = true :=
    (truthy_str_trim _).2 exampleText_not_blank
  have hd : generateDisabled (loadExample s) = s.loading := by
    show (s.loading || !truthy (.str (jsTrim exampleText))) = s.loading
    rw [ht]
    simp
  refine ⟨rfl, rfl, rfl, rfl, exampleText_not_blank, hd, ?_⟩
  rw [hd]

/-- C9: from every state, clearAll gives inputText = the empty string, result = null and
error = the empty string and keeps loading; applying it twice equals applying it
once; after it the Generate button is disabled. -/
theorem clearAll_effect (s : State) :
    clearAll s = { inputText := "", loading := s.loading, result := none,
                   error := .str "" } ∧
    clearAll (clearAll s) = clearAll s ∧
    generateDisabled (clearAll s) = true := by
  refine ⟨rfl, rfl, ?_⟩
  show (s.loading || !truthy (.str (jsTrim ""))) = true
  have : truthy (.str (jsTrim "")) = false := by decide
  rw [this]
  simp

/-! ## The lowered graph is a forest -/

mutual
theorem lowerNode_ok : ∀ (t : TreeNode) (parent : Option Nat) (next : Nat),
    LowerOk next (sizeNode t) (rootCount parent 1) (lowerNode parent next t)
  | .mk label depth children, parent, next => by
    have ih := lowerForest_ok children (some next) (next + 1)
    simp only [rootCount] at ih
    rw [lowerNode, sizeNode]
    refine ⟨?_, ?_, ?_, ?_⟩
    · simp only [List.length_cons]
      have := ih.nodes_length
      omega
    · have := ih.edges_length
      cases parent <;> simp [edgeInto, rootCount] <;> omega
    · intro e he
      simp only [List.mem_append] at he
      rcases he with he | he
      · cases parent with
        | none => simp [edgeInto] at he
        | some p =>
          simp only [edgeInto, List.mem_singleton] at he
          subst he
          simp only
          omega
      · have := ih.dst_range e he
        omega
    · simp only [List.map_append]
      rw [List.pairwise_append]
      refine ⟨?_, ih.dst_sorted, ?_⟩
      · cases parent <;> simp [edgeInto]
      · intro a ha b hb
        rw [List.mem_map] at ha hb
        obtain ⟨ea, hea, rfl⟩ := ha
        obtain ⟨eb, heb, rfl⟩ := hb
        have h2 := ih.dst_range eb heb
        cases parent with
        | none => simp [edgeInto] at hea
        | some p =>
          simp only [edgeInto, List.mem_singleton] at hea
          subst hea
          simp only
          omega
theorem lowerForest_ok : ∀ (ts : List TreeNode) (parent : Option Nat) (next : Nat),
    LowerOk next (sizeForest ts) (rootCount parent ts.length) (lowerForest parent next ts)
  | [], parent, next => by
    rw [lowerForest, sizeForest]
    refine ⟨rfl, ?_, ?_, ?_⟩
    · cases parent <;> simp [rootCount]
    · intro e he
      simp at he
    · simp
  | t :: ts, parent, next => by
    have ih1 := lowerNode_ok t parent next
    have ih2 := lowerForest_ok ts parent (next + (lowerNode parent next t).1.length)
    rw [ih1.nodes_length] at ih2
    rw [lowerForest, sizeForest]
    simp only [ih1.nodes_length]
    refine ⟨?_, ?_, ?_, ?_⟩
    · simp only [List.length_append]
      have := ih1.nodes_length
      have := ih2.nodes_length
      omega
    · simp only [List.length_append]
      have h1 := ih1.edges_length
      have h2 := ih2.edges_length
      cases parent <;> simp only [rootCount, List.length_cons] at h1 h2 ⊢ <;> omega
    · intro e he
      simp only [List.mem_append] at he
      rcases he with he | he
      · have := ih1.dst_range e he
        omega
      · have := ih2.dst_range e he
        omega
    · simp only [List.map_append]
      rw [List.pairwise_append]
      refine ⟨ih1.dst_sorted, ih2.dst_sorted, ?_⟩
      intro a ha b hb
      rw [List.mem_map] at ha hb
      obtain ⟨ea, hea, rfl⟩ := ha
      obtain ⟨eb, heb, rfl⟩ := hb
      have h1 := ih1.dst_range ea hea
      have h2 := ih2.dst_range eb heb
      omega
end

theorem inDegree_le_one_of_sorted (edges : List GraphEdge) (id : Nat)
    (h : (edges.map (fun e => e.dst)).Pairwise (fun a b => a < b)) :
    inDegree edges id ≤ 1 := by
  unfold inDegree
  induction edges with
  | nil => simp
  | cons e es ih =>
    rw [List.map_cons, List.pairwise_cons] at h
    by_cases hd : e.dst = id
    · have hnone : es.filter (fun x => x.dst == id) = [] := by
        rw [List.filter_eq_nil_iff]
        intro x hx
        have := h.1 x.dst (List.mem_map.2 ⟨x, hx, rfl⟩)
        simp only [beq_iff_eq]
        omega
      simp [List.filter_cons, hd, hnone]
    · have := ih h.2
      simp [List.filter_cons, hd]
      exact this

/-- A lowered forest has one edge less than nodes for every root, and no node with
two incoming edges. -/
theorem lowerForest_forest (forest : List TreeNode) :
    (lowerForest none 0 forest).2.length + forest.length =
      (lowerForest none 0 forest).1.length ∧
    ∀ id, inDegree (lowerForest none 0 forest).2 id ≤ 1 := by
  have h := lowerForest_ok forest none 0
  refine ⟨?_, fun id => inDegree_le_one_of_sorted _ id h.dst_sorted⟩
  have h1 := h.nodes_length
  have h2 := h.edges_length
  simp only [rootCount] at h2
  omega

/-! ## The tree builder -/

theorem sizeForest_append (xs ys : List TreeNode) :
    sizeForest (xs ++ ys) = sizeForest xs + sizeForest ys := by
  induction xs with
  | nil => simp [sizeForest]
  | cons x xs ih =>
    rw [List.cons_append, sizeForest, sizeForest, ih]
    omega

theorem sizeForest_appendClosed (cs : List TreeNode) (pending : Option TreeNode) :
    sizeForest (appendClosed cs pending) = sizeForest cs + pendingSize pending := by
  cases pending with
  | none => simp [appendClosed, pendingSize]
  | some t => simp [appendClosed, pendingSize, sizeForest_append, sizeForest]

theorem popWhile_size (depth : Nat) (stack : List OpenNode) :
    ∀ (pending : Option TreeNode) (roots : List TreeNode),
      stackSize (popWhile depth pending stack roots).1 +
          sizeForest (popWhile depth pending stack roots).2 =
        pendingSize pending + stackSize stack + sizeForest roots := by
  induction stack with
  | nil =>
    intro pending roots
    simp only [popWhile, stackSize, sizeForest_appendClosed]
    omega
  | cons top below ih =>
    intro pending roots
    rw [popWhile]
    simp only []
    split_ifs with h
    · rw [ih]
      simp only [pendingSize, OpenNode.close, sizeNode, sizeForest_appendClosed, stackSize]
      omega
    · simp only [stackSize, sizeForest_appendClosed]
      omega

theorem popWhile_zero_stack (stack : List OpenNode) :
    ∀ (pending : Option TreeNode) (roots : List TreeNode),
      (popWhile 0 pending stack roots).1 = [] := by
  induction stack with
  | nil =>
    intro pending roots
    rfl
  | cons top below ih =>
    intro pending roots
    rw [popWhile]
    simp only [Nat.zero_le, if_true]
    exact ih _ _

theorem foldl_pushLine_size (lines : List HierarchyLine) :
    ∀ (acc : List OpenNode × List TreeNode),
      stackSize (lines.foldl pushLine acc).1 + sizeForest (lines.foldl pushLine acc).2 =
        stackSize acc.1 + sizeForest acc.2 + lines.length := by
  induction lines with
  | nil =>
    intro acc
    simp
  | cons l ls ih =>
    intro acc
    rw [List.foldl_cons, ih]
    have h := popWhile_size l.depth acc.1 none acc.2
    simp only [pushLine, stackSize, sizeForest, pendingSize, List.length_cons] at h ⊢
    omega

/-- The tree builder makes one node per line. -/
theorem sizeForest_forestOfLines (lines : List HierarchyLine) :
    sizeForest (forestOfLines lines) = lines.length := by
  unfold forestOfLines
  simp only []
  have h1 := popWhile_size 0 (lines.foldl pushLine ([], [])).1 none
    (lines.foldl pushLine ([], [])).2
  have h2 := popWhile_zero_stack (lines.foldl pushLine ([], [])).1 none
    (lines.foldl pushLine ([], [])).2
  have h3 := foldl_pushLine_size lines ([], [])
  rw [h2] at h1
  simp only [stackSize, sizeForest, pendingSize] at h1 h3
  omega

theorem popWhile_zero_roots (stack : List OpenNode) :
    ∀ (pending : Option TreeNode) (roots : List TreeNode), stack ≠ [] →
      (popWhile 0 pending stack roots).2.length = roots.length + 1 := by
  induction stack with
  | nil =>
    intro pending roots h
    exact absurd rfl h
  | cons top below ih =>
    intro pending roots _
    rw [popWhile]
    simp only [Nat.zero_le, if_true]
    cases below with
    | nil => simp [popWhile, appendClosed]
    | cons b bs => exact ih _ _ (by simp)

theorem popWhile_keeps_bottom (depth : Nat) (hd : 0 < depth) (stack : List OpenNode) :
    ∀ (pending : Option TreeNode) (roots : List TreeNode), bottomAtZero stack →
      bottomAtZero (popWhile depth pending stack roots).1 ∧
        (popWhile depth pending stack roots).2 = roots := by
  induction stack with
  | nil =>
    intro pending roots h
    simp [bottomAtZero] at h
  | cons top below ih =>
    intro pending roots h
    rw [popWhile]
    simp only []
    split_ifs with hpop
    · cases below with
      | nil =>
        simp only [bottomAtZero, List.getLast?_singleton, Option.map_some', Option.some.injEq]
          at h
        omega
      | cons b bs =>
        apply ih
        simpa [bottomAtZero, List.getLast?_cons_cons] using h
    · refine ⟨?_, rfl⟩
      cases below with
      | nil => simpa [bottomAtZero] using h
      | cons b bs => simpa [bottomAtZero, List.getLast?_cons_cons] using h

theorem foldl_pushLine_roots (lines : List HierarchyLine) :
    ∀ (acc : List OpenNode × List TreeNode), bottomAtZero acc.1 →
      bottomAtZero (lines.foldl pushLine acc).1 ∧
        (lines.foldl pushLine acc).2.length =
          acc.2.length + (depthZeroLines lines).length := by
  induction lines with
  | nil =>
    intro acc h
    exact ⟨h, by simp [depthZeroLines]⟩
  | cons l ls ih =>
    intro acc h
    rw [List.foldl_cons]
    have hne : acc.1 ≠ [] := by
      intro h0
      simp [bottomAtZero, h0] at h
    by_cases hz : l.depth = 0
    · have hb : bottomAtZero (pushLine acc l).1 := by
        simp [pushLine, bottomAtZero, hz, popWhile_zero_stack]
      have hr : (pushLine acc l).2.length = acc.2.length + 1 := by
        simp only [pushLine, hz]
        exact popWhile_zero_roots acc.1 none acc.2 hne
      obtain ⟨h1, h2⟩ := ih (pushLine acc l) hb
      refine ⟨h1, ?_⟩
      rw [h2, hr]
      simp [depthZeroLines, List.filter_cons, hz]
      omega
    · have hpos : 0 < l.depth := Nat.pos_of_ne_zero hz
      obtain ⟨hk, hroots⟩ := popWhile_keeps_bottom l.depth hpos acc.1 none acc.2 h
      have hb : bottomAtZero (pushLine acc l).1 := by
        simp only [pushLine]
        cases hp : (popWhile l.depth none acc.1 acc.2).1 with
        | nil => simp [bottomAtZero, hp] at hk
        | cons b bs =>
          rw [hp] at hk
          simpa [bottomAtZero, List.getLast?_cons_cons] using hk
      have hr : (pushLine acc l).2.length = acc.2.length := by
        simp only [pushLine, hroots]
      obtain ⟨h1, h2⟩ := ih (pushLine acc l) hb
      refine ⟨h1, ?_⟩
      rw [h2, hr]
      simp [depthZeroLines, List.filter_cons, hz]

/-- When the first line is at depth 0, the roots of the forest are as many as the lines
at depth 0. -/
theorem roots_eq_depthZeroLines (first : HierarchyLine) (rest : List HierarchyLine)
    (h : first.depth = 0) :
    (forestOfLines (first :: rest)).length = (depthZeroLines (first :: rest)).length := by
  unfold forestOfLines
  simp only [List.foldl_cons]
  have hb : bottomAtZero (pushLine ([], []) first).1 := by
    simp [pushLine, bottomAtZero, h, popWhile]
  obtain ⟨h1, h2⟩ := foldl_pushLine_roots rest (pushLine ([], []) first) hb
  have hne : (rest.foldl pushLine (pushLine ([], []) first)).1 ≠ [] := by
    intro h0
    simp [bottomAtZero, h0] at h1
  rw [popWhile_zero_roots _ none _ hne, h2]
  simp [pushLine, popWhile, appendClosed, depthZeroLines, List.filter_cons, h]

/-- What compile returns on success, stage by stage. -/
theorem compile_ok (cfg : Config) (text : String) (out : Compiled)
    (h : compile cfg text = .ok out) :
    parseText cfg text = .ok out.lines ∧
    out.lines ≠ [] ∧
    out.forest = forestOfLines out.lines ∧
    (out.nodes, out.edges) = lowerForest none 0 out.forest ∧
    out.nodeCount = out.nodes.length ∧
    out.edgeCount = out.edges.length := by
  unfold compile at h
  split_ifs at h with h1
  cases hp : parseText cfg text with
  | error e => simp [hp] at h
  | ok lines =>
    simp only [hp] at h
    unfold buildForest at h
    by_cases hl : lines.isEmpty = true
    · simp [hl] at h
    · simp only [hl, Bool.false_eq_true, if_false] at h
      split_ifs at h with h2 h3
      simp only [Except.ok.injEq] at h
      subst h
      refine ⟨rfl, ?_, rfl, rfl, rfl, rfl⟩
      intro h0
      apply hl
      have h00 : lines = [] := h0
      simp [h00]

/-- C10 (refuted as stated): the pipeline completes on the text whose first line is
indented by one level and whose second line is not; it reports 2 nodes and 0 edges,
while the text has a single top-level line, so the edge count is not the node count
minus the number of top-level lines. -/
theorem compile_roots_not_top_level_lines :
    compile defaultConfig indentedFirstText = .ok indentedFirstCompiled ∧
    indentedFirstCompiled.nodeCount = 2 ∧
    indentedFirstCompiled.edgeCount = 0 ∧
    (depthZeroLines indentedFirstCompiled.lines).length = 1 ∧
    (topLevelLines indentedFirstText).length = 1 ∧
    ¬ (indentedFirstCompiled.edgeCount =
        indentedFirstCompiled.nodeCount -
          (depthZeroLines indentedFirstCompiled.lines).length) ∧
    ¬ (indentedFirstCompiled.edgeCount =
        indentedFirstCompiled.nodeCount - (topLevelLines indentedFirstText).length) := by
  refine ⟨rfl, rfl, rfl, by decide, by decide, by decide, by decide⟩

/-- C10 (amended): for every text for which the pipeline completes, the reported edge
count is the reported node count minus the number of roots, and no node has more
than one incoming edge, where the roots are the trees of the forest that the tree
builder makes of the parsed lines, that is the nodes without a parent.  The node
count is the number of parsed lines.  When the first parsed line is at depth 0, the
roots are as many as the lines at depth 0; otherwise they need not be. -/
theorem compile_forest_invariant (cfg : Config) (text : String) (out : Compiled)
    (h : compile cfg text = .ok out) :
    out.edgeCount = out.nodeCount - (forestOfLines out.lines).length ∧
    out.edgeCount + (forestOfLines out.lines).length = out.nodeCount ∧
    (∀ id, inDegree out.edges id ≤ 1) ∧
    parseText cfg text = .ok out.lines ∧
    out.forest = forestOfLines out.lines ∧
    (out.nodes, out.edges) = lowerForest none 0 out.forest ∧
    out.nodeCount = out.nodes.length ∧
    out.edgeCount = out.edges.length ∧
    out.nodeCount = out.lines.length ∧
    (∀ first rest, out.lines = first :: rest → first.depth = 0 →
      (forestOfLines out.lines).length = (depthZeroLines out.lines).length) := by
  obtain ⟨hp, _, hf, hg, hn, he⟩ := compile_ok cfg text out h
  have hnodes : out.nodes = (lowerForest none 0 out.forest).1 := by rw [← hg]
  have hedges : out.edges = (lowerForest none 0 out.forest).2 := by rw [← hg]
  have hforest := lowerForest_forest out.forest
  have hok := lowerForest_ok out.forest none 0
  have hsize := sizeForest_forestOfLines out.lines
  have hcount : out.edgeCount + (forestOfLines out.lines).length = out.nodeCount := by
    rw [hn, he, hnodes, hedges, ← hf]
    exact hforest.1
  refine ⟨by omega, hcount, ?_, hp, hf, hg, hn, he, ?_, ?_⟩
  · intro id
    rw [hedges]
    exact hforest.2 id
  · rw [hn, hnodes, hok.nodes_length, hf, hsize]
  · intro first rest hl hd
    rw [hl]
    exact roots_eq_depthZeroLines first rest hd

theorem compile_forest_invariant_witness :
    compile defaultConfig scenarioAText = .ok scenarioACompiled ∧
    (scenarioACompiled.edgeCount =
        scenarioACompiled.nodeCount - (forestOfLines scenarioACompiled.lines).length ∧
      scenarioACompiled.edgeCount + (forestOfLines scenarioACompiled.lines).length =
        scenarioACompiled.nodeCount ∧
      (∀ id, inDegree scenarioACompiled.edges id ≤ 1) ∧
      parseText defaultConfig scenarioAText = .ok scenarioACompiled.lines ∧
      scenarioACompiled.forest = forestOfLines scenarioACompiled.lines ∧
      (scenarioACompiled.nodes, scenarioACompiled.edges) =
        lowerForest none 0 scenarioACompiled.forest ∧
      scenarioACompiled.nodeCount = scenarioACompiled.nodes.length ∧
      scenarioACompiled.edgeCount = scenarioACompiled.edges.length ∧
      scenarioACompiled.nodeCount = scenarioACompiled.lines.length ∧
      (∀ first rest, scenarioACompiled.lines = first :: rest → first.depth = 0 →
        (forestOfLines scenarioACompiled.lines).length =
          (depthZeroLines scenarioACompiled.lines).length)) :=
  ⟨rfl, compile_forest_invariant defaultConfig scenarioAText scenarioACompiled rfl⟩

/-! ## One node per line -/

theorem parseLines_length (cfg : Config) (ls : List String) :
    ∀ (prev : Option Nat) (lineNo : Nat) (out : List HierarchyLine),
      parseLines cfg prev lineNo ls = .ok out →
        out.length = (ls.filter (fun l => !isBlankLine l)).length := by
  induction ls with
  | nil =>
    intro prev lineNo out h
    simp only [parseLines, Except.ok.injEq] at h
    subst h
    rfl
  | cons l ls ih =>
    intro prev lineNo out h
    rw [parseLines] at h
    by_cases hb : isBlankLine l = true
    · simp only [hb, if_true] at h
      rw [List.filter_cons]
      simp only [hb, Bool.not_true, Bool.false_eq_true, if_false]
      exact ih _ _ _ h
    · simp only [hb, Bool.false_eq_true, if_false] at h
      split_ifs at h with hj
      cases hp : parseLines cfg
          (some (depthOfWidth cfg.indentUnit (leadingWidth cfg.indentUnit l.data)))
          (lineNo + 1) ls with
      | error e => simp [hp] at h
      | ok more =>
        simp only [hp, Except.ok.injEq] at h
        subst h
        rw [List.filter_cons]
        simp only [hb, Bool.not_false, if_true, List.length_cons]
        rw [ih _ _ _ hp]

/-- The node count of a completed lowering is the number of parsed lines. -/
theorem compile_nodeCount (cfg : Config) (text : String) (out : Compiled)
    (h : compile cfg text = .ok out) :
    out.nodeCount = nonBlankLineCount text := by
  obtain ⟨hp, _, hf, hg, hn, _⟩ := compile_ok cfg text out h
  have hnodes : out.nodes = (lowerForest none 0 out.forest).1 := by rw [← hg]
  have hok := lowerForest_ok out.forest none 0
  rw [hn, hnodes, hok.nodes_length, hf, sizeForest_forestOfLines]
  exact parseLines_length cfg (textLines text) none 1 out.lines hp

/-- What a completed request returns, in terms of the stages. -/
theorem generate_ok (cfg : Config) (lc : LayoutConfig) (amb : Ambient) (text : String)
    (r : Generated × Ambient) (h : generate cfg lc amb text = .ok r) :
    ∃ c, compile cfg text = .ok c ∧
      r.1.nodeCount = c.nodeCount ∧
      r.1.edgeCount = c.edgeCount ∧
      r.1.diagramSource = emitDiagram c.nodes c.edges ∧
      r.1.layout = placeRoots lc 0 0 c.forest ∧
      r.1.canvasWidth = (canvasSize lc (placeRoots lc 0 0 c.forest)).1 ∧
      r.1.canvasHeight = (canvasSize lc (placeRoots lc 0 0 c.forest)).2 ∧
      r.1.imageHandle = handleOf amb.nextHandle ∧
      r.2.nextHandle = amb.nextHandle + 1 := by
  unfold generate at h
  cases hc : compile cfg text with
  | error e => simp [hc] at h
  | ok c =>
    simp only [hc] at h
    split_ifs at h with h1 h2
    simp only [Except.ok.injEq] at h
    subst h
    exact ⟨c, rfl, rfl, rfl, rfl, rfl, rfl, rfl, rfl, rfl⟩

/-- C11: for every text for which a request completes, the number of nodes generated is
the number of lines of the text that are neither empty nor white space only, and it
is this number that the success branch of lines 74-80 stores as result.nodes, the
value rendered as Total Nodes at line 591. -/
theorem total_nodes_eq_nonblank_lines (cfg : Config) (lc : LayoutConfig) (amb : Ambient)
    (text : String) (r : Generated × Ambient) (s : State)
    (h : generate cfg lc amb text = .ok r) :
    r.1.nodeCount = nonBlankLineCount text ∧
    (∃ c, compile cfg text = .ok c ∧ c.nodes.length = nonBlankLineCount text ∧
      c.lines.length = nonBlankLineCount text) ∧
    (∃ shown stored, processData (successBody r.1) s = .ok shown ∧
      shown.result = some stored ∧
      stored.nodes = .num (nonBlankLineCount text)) := by
  obtain ⟨c, hc, hn, _⟩ := generate_ok cfg lc amb text r h
  have hcount := compile_nodeCount cfg text c hc
  obtain ⟨hp, _, _, _, hlen, _⟩ := compile_ok cfg text c hc
  refine ⟨by rw [hn, hcount], ⟨c, hc, ?_, ?_⟩, ?_⟩
  · rw [← hlen, hcount]
  · exact parseLines_length cfg (textLines text) none 1 c.lines hp
  · refine ⟨_, _, rfl, rfl, ?_⟩
    show JsVal.num (r.1.nodeCount : Int) = JsVal.num (nonBlankLineCount text : Int)
    rw [hn, hcount]

theorem total_nodes_eq_nonblank_lines_witness :
    generate defaultConfig sampleLayoutConfig freshAmbient scenarioAText =
      .ok scenarioAFirstRun ∧
    (scenarioAFirstRun.1.nodeCount = nonBlankLineCount scenarioAText ∧
    (∃ c, compile defaultConfig scenarioAText = .ok c ∧
      c.nodes.length = nonBlankLineCount scenarioAText ∧
      c.lines.length = nonBlankLineCount scenarioAText) ∧
    (∃ shown stored, processData (successBody scenarioAFirstRun.1) typedState = .ok shown ∧
      shown.result = some stored ∧
      stored.nodes = .num (nonBlankLineCount scenarioAText))) :=
  ⟨rfl, total_nodes_eq_nonblank_lines defaultConfig sampleLayoutConfig freshAmbient
    scenarioAText scenarioAFirstRun typedState rfl⟩

/-! ## The success branch is never reached -/

theorem handleGenerate_keeps_null (env : Env) (s : State) (b : Browser)
    (h : s.result = none) : (handleGenerate env s b).state.result = none := by
  by_cases hb : jsTrim s.inputText = ""
  · rw [run_of_blank env s b hb]
    exact h
  · obtain ⟨e, he⟩ := run_of_nonblank env s b hb
    rw [he]

theorem handleDownload_without_result (env : Env) (s : State) (b : Browser)
    (h : s.result = none) :
    handleDownload env s b = { state := s, browser := b, thrown := none } := by
  unfold handleDownload
  rw [h]

theorem applyEvent_keeps_null (p : State × Browser) (ev : Event) (h : p.1.result = none) :
    (applyEvent p ev).1.result = none := by
  cases ev with
  | changeText value => exact h
  | clickGenerate env => exact handleGenerate_keeps_null env p.1 p.2 h
  | clickDownload env =>
    show (handleDownload env p.1 p.2).state.result = none
    rw [handleDownload_without_result env p.1 p.2 h]
    exact h
  | clickLoadExample => rfl
  | clickClearAll => rfl

/-- No sequence of events takes the component from a state without a result to a state
with one. -/
theorem runEvents_keeps_null (events : List Event) :
    ∀ (p : State × Browser), p.1.result = none → (runEvents events p).1.result = none := by
  induction events with
  | nil =>
    intro p h
    exact h
  | cons ev evs ih =>
    intro p h
    exact ih (applyEvent p ev) (applyEvent_keeps_null p ev h)

/-- C13: the name response is bound neither in the try block of handleGenerate nor in a
scope around it, so the try block throws on every outcome of the request; for every
text that is not blank and every outcome, a well-formed success response included,
handleGenerate ends with result null, the backend message of line 85 in error and
loading false, and throws nothing; no sequence of events from the initial state
reaches a state with a result that is not null. -/
theorem handleGenerate_always_backend_error (env : Env) (s : State) (b : Browser)
    (h : jsTrim s.inputText ≠ "") :
    "response" ∉ enclosingScope ∧
    (∀ fetched, (tryBlockBindings fetched).lookup "response" = none) ∧
    (∃ e, (tryGenerate env (setResult none (setError (.str "") (setLoading true s)))
      b).thrown = some e) ∧
    (handleGenerate env s b).state.result = none ∧
    (handleGenerate env s b).state.error =
      .str "Unable to connect to backend. Ensure Python server is running on http://localhost:5000" ∧
    (handleGenerate env s b).state.loading = false ∧
    (handleGenerate env s b).thrown = none ∧
    (∀ events, (runEvents events (initialState, emptyBrowser)).1.result = none) := by
  obtain ⟨e, he⟩ := run_of_nonblank env s b h
  obtain ⟨e2, he2⟩ := tryGenerate_throws env
    (setResult none (setError (.str "") (setLoading true s))) b
  refine ⟨by decide, fun _ => rfl, ⟨e2, by rw [he2]⟩, ?_, ?_, ?_, ?_, ?_⟩
  · rw [he]
  · rw [he]
    rfl
  · rw [he]
  · rw [he]
  · intro events
    exact runEvents_keeps_null events (initialState, emptyBrowser) rfl

theorem handleGenerate_always_backend_error_witness :
    jsTrim typedState.inputText ≠ "" ∧
    ("response" ∉ enclosingScope ∧
    (∀ fetched, (tryBlockBindings fetched).lookup "response" = none) ∧
    (∃ e, (tryGenerate (envAnswering sampleSuccessData)
      (setResult none (setError (.str "") (setLoading true typedState)))
      emptyBrowser).thrown = some e) ∧
    (handleGenerate (envAnswering sampleSuccessData) typedState emptyBrowser).state.result
      = none ∧
    (handleGenerate (envAnswering sampleSuccessData) typedState emptyBrowser).state.error =
      .str "Unable to connect to backend. Ensure Python server is running on http://localhost:5000" ∧
    (handleGenerate (envAnswering sampleSuccessData) typedState emptyBrowser).state.loading
      = false ∧
    (handleGenerate (envAnswering sampleSuccessData) typedState emptyBrowser).thrown = none ∧
    (∀ events, (runEvents events (initialState, emptyBrowser)).1.result = none)) :=
  ⟨by decide, handleGenerate_always_backend_error (envAnswering sampleSuccessData)
    typedState emptyBrowser (by decide)⟩

/-! ## handleDownload -/

/-- A run of handleDownload in which the fetch or the reading of the blob fails. -/
theorem run_of_failed_download (env : Env) (s : State) (b : Browser) (r : GenResult)
    (hr : s.result = some r) (hu : r.imageUrl ≠ "")
    (hfail : env.net (downloadRequest r.imageUrl) = .rejected ∨
      ∃ resp, env.net (downloadRequest r.imageUrl) = .resolved resp ∧ resp.blob = none) :
    ∃ e, handleDownload env s b =
      { state := setError (.str msgDownload) s,
        browser := { b with requests := b.requests ++ [downloadRequest r.imageUrl],
                            consoleErrors := b.consoleErrors ++ [e] },
        thrown := none } := by
  have ht : truthy (.str r.imageUrl) = true := by simp [truthy, hu]
  unfold handleDownload
  rw [hr]
  simp only [ht, if_true]
  unfold tryDownload
  rcases hfail with hrej | ⟨resp, hres, hblob⟩
  · exact ⟨.networkError, by simp only [hrej, catchDownload]⟩
  · exact ⟨.bodyReadError, by simp only [hres, hblob, catchDownload]⟩

/-- A run of handleDownload in which the image is fetched and its blob is read. -/
theorem run_of_download (env : Env) (s : State) (b : Browser) (r : GenResult)
    (resp : Response) (bytes : List Nat)
    (hr : s.result = some r) (hu : r.imageUrl ≠ "")
    (hnet : env.net (downloadRequest r.imageUrl) = .resolved resp)
    (hblob : resp.blob = some bytes) :
    handleDownload env s b =
      { state := s,
        browser :=
          { requests := b.requests ++ [downloadRequest r.imageUrl],
            consoleErrors := b.consoleErrors,
            bodyChildren :=
              (b.bodyChildren ++
                [({ nodeId := b.nextNodeId, tag := "a", href := env.freshObjectUrl,
                    download := "flowchart_" ++ toString env.now ++ ".png" } :
                  Element)]).filter
                (fun e => e.nodeId != b.nextNodeId),
            objectUrls :=
              (b.objectUrls ++ [env.freshObjectUrl]).filter
                (fun u => u != env.freshObjectUrl),
            clicked := b.clicked ++
              [{ nodeId := b.nextNodeId, tag := "a", href := env.freshObjectUrl,
                 download := "flowchart_" ++ toString env.now ++ ".png" }],
            nextNodeId := b.nextNodeId + 1 },
        thrown := none } := by
  have ht : truthy (.str r.imageUrl) = true := by simp [truthy, hu]
  unfold handleDownload
  rw [hr]
  simp only [ht, if_true]
  unfold tryDownload
  simp only [hnet, hblob]

theorem filter_keeps_older_children (children : List Element) (next : Nat) (link : Element)
    (hl : link.nodeId = next) (hwf : ∀ e ∈ children, e.nodeId < next) :
    (children ++ [link]).filter (fun e => e.nodeId != next) = children := by
  rw [List.filter_append]
  have h1 : children.filter (fun e => e.nodeId != next) = children := by
    rw [List.filter_eq_self]
    intro e he
    have := hwf e he
    simp only [bne_iff_ne, ne_eq]
    omega
  have h2 : [link].filter (fun e => e.nodeId != next) = [] := by
    simp [List.filter_cons, hl]
  rw [h1, h2, List.append_nil]

theorem filter_revokes (urls : List String) (u : String) :
    (urls ++ [u]).filter (fun v => v != u) = urls.filter (fun v => v != u) := by
  simp [List.filter_append, List.filter_cons]

/-- C14: when the fetch of result.imageUrl rejects or the blob of the response cannot
be read, handleDownload sets error to the message of line 114 and leaves inputText,
loading and result unchanged, and throws nothing. -/
theorem handleDownload_failure (env : Env) (s : State) (b : Browser) (r : GenResult)
    (hr : s.result = some r) (hu : r.imageUrl ≠ "")
    (hfail : env.net (downloadRequest r.imageUrl) = .rejected ∨
      ∃ resp, env.net (downloadRequest r.imageUrl) = .resolved resp ∧ resp.blob = none) :
    (handleDownload env s b).state.error =
      .str "Failed to download image. Please try right-clicking and saving the image." ∧
    (handleDownload env s b).state.inputText = s.inputText ∧
    (handleDownload env s b).state.loading = s.loading ∧
    (handleDownload env s b).state.result = s.result ∧
    (handleDownload env s b).thrown = none ∧
    (handleDownload env s b).browser.bodyChildren = b.bodyChildren ∧
    (handleDownload env s b).browser.objectUrls = b.objectUrls ∧
    (handleDownload env s b).browser.clicked = b.clicked := by
  obtain ⟨e, he⟩ := run_of_failed_download env s b r hr hu hfail
  rw [he]
  exact ⟨rfl, rfl, rfl, rfl, rfl, rfl, rfl, rfl⟩

theorem handleDownload_failure_witness :
    storedSuccessState.result =
      some { imageUrl := "http://localhost:5000/static/flowchart_1.png",
             nodes := .num 4, edges := .num 3, mermaid := .str "graph TD" } ∧
    "http://localhost:5000/static/flowchart_1.png" ≠ "" ∧
    (downloadEnvBroken.net
        (downloadRequest "http://localhost:5000/static/flowchart_1.png") = .rejected ∨
      ∃ resp, downloadEnvBroken.net
        (downloadRequest "http://localhost:5000/static/flowchart_1.png") = .resolved resp ∧
        resp.blob = none) ∧
    ((handleDownload downloadEnvBroken storedSuccessState pageBrowser).state.error =
      .str "Failed to download image. Please try right-clicking and saving the image." ∧
    (handleDownload downloadEnvBroken storedSuccessState pageBrowser).state.inputText =
      storedSuccessState.inputText ∧
    (handleDownload downloadEnvBroken storedSuccessState pageBrowser).state.loading =
      storedSuccessState.loading ∧
    (handleDownload downloadEnvBroken storedSuccessState pageBrowser).state.result =
      storedSuccessState.result ∧
    (handleDownload downloadEnvBroken storedSuccessState pageBrowser).thrown = none ∧
    (handleDownload downloadEnvBroken storedSuccessState pageBrowser).browser.bodyChildren =
      pageBrowser.bodyChildren ∧
    (handleDownload downloadEnvBroken storedSuccessState pageBrowser).browser.objectUrls =
      pageBrowser.objectUrls ∧
    (handleDownload downloadEnvBroken storedSuccessState pageBrowser).browser.clicked =
      pageBrowser.clicked) :=
  ⟨rfl, by decide, Or.inr ⟨_, rfl, rfl⟩,
    handleDownload_failure downloadEnvBroken storedSuccessState pageBrowser
      { imageUrl := "http://localhost:5000/static/flowchart_1.png",
        nodes := .num 4, edges := .num 3, mermaid := .str "graph TD" }
      rfl (by decide) (Or.inr ⟨_, rfl, rfl⟩)⟩

/-- C15: on the successful path of handleDownload (result.imageUrl not empty, the fetch
resolves and the blob is read) the anchor appended to document.body is removed again,
so the children of the body are the same before and after; the blob URL that was
created is not among the live object URLs afterwards, and the live URLs are the
earlier ones when the created URL is new; the component state is unchanged; the
element that was clicked is an anchor whose href is the blob URL and whose download
name is flowchart_ followed by the millisecond timestamp and .png; nothing is
thrown. -/
theorem handleDownload_cleanup (env : Env) (s : State) (b : Browser) (r : GenResult)
    (resp : Response) (bytes : List Nat)
    (hr : s.result = some r) (hu : r.imageUrl ≠ "")
    (hnet : env.net (downloadRequest r.imageUrl) = .resolved resp)
    (hblob : resp.blob = some bytes) (hwf : domWellFormed b) :
    (handleDownload env s b).browser.bodyChildren = b.bodyChildren ∧
    env.freshObjectUrl ∉ (handleDownload env s b).browser.objectUrls ∧
    (env.freshObjectUrl ∉ b.objectUrls →
      (handleDownload env s b).browser.objectUrls = b.objectUrls) ∧
    (handleDownload env s b).state = s ∧
    (handleDownload env s b).browser.clicked =
      b.clicked ++ [{ nodeId := b.nextNodeId, tag := "a", href := env.freshObjectUrl,
                      download := "flowchart_" ++ toString env.now ++ ".png" }] ∧
    (handleDownload env s b).thrown = none ∧
    domWellFormed (handleDownload env s b).browser := by
  rw [run_of_download env s b r resp bytes hr hu hnet hblob]
  have hkeep := filter_keeps_older_children b.bodyChildren b.nextNodeId
    { nodeId := b.nextNodeId, tag := "a", href := env.freshObjectUrl,
      download := "flowchart_" ++ toString env.now ++ ".png" } rfl hwf
  refine ⟨hkeep, ?_, ?_, rfl, rfl, rfl, ?_⟩
  · simp only [filter_revokes]
    intro hmem
    rw [List.mem_filter] at hmem
    simp at hmem
  · intro hfresh
    simp only [filter_revokes]
    rw [List.filter_eq_self]
    intro u hu2
    simp only [bne_iff_ne, ne_eq]
    intro heq
    exact hfresh (heq ▸ hu2)
  · intro e he
    simp only [hkeep] at he
    have := hwf e he
    simp only
    omega

theorem handleDownload_cleanup_witness :
    storedSuccessState.result =
      some { imageUrl := "http://localhost:5000/static/flowchart_1.png",
             nodes := .num 4, edges := .num 3, mermaid := .str "graph TD" } ∧
    "http://localhost:5000/static/flowchart_1.png" ≠ "" ∧
    (envAnswering sampleSuccessData).net
        (downloadRequest "http://localhost:5000/static/flowchart_1.png") =
      .resolved { json := some sampleSuccessData, blob := some [137, 80, 78, 71] } ∧
    domWellFormed pageBrowser ∧
    ((handleDownload (envAnswering sampleSuccessData) storedSuccessState
        pageBrowser).browser.bodyChildren = pageBrowser.bodyChildren ∧
    (envAnswering sampleSuccessData).freshObjectUrl ∉
      (handleDownload (envAnswering sampleSuccessData) storedSuccessState
        pageBrowser).browser.objectUrls ∧
    ((envAnswering sampleSuccessData).freshObjectUrl ∉ pageBrowser.objectUrls →
      (handleDownload (envAnswering sampleSuccessData) storedSuccessState
        pageBrowser).browser.objectUrls = pageBrowser.objectUrls) ∧
    (handleDownload (envAnswering sampleSuccessData) storedSuccessState pageBrowser).state =
      storedSuccessState ∧
    (handleDownload (envAnswering sampleSuccessData) storedSuccessState
        pageBrowser).browser.clicked =
      pageBrowser.clicked ++
        [{ nodeId := pageBrowser.nextNodeId, tag := "a",
           href := (envAnswering sampleSuccessData).freshObjectUrl,
           download := "flowchart_" ++ toString (envAnswering sampleSuccessData).now ++
             ".png" }] ∧
    (handleDownload (envAnswering sampleSuccessData) storedSuccessState pageBrowser).thrown =
      none ∧
    domWellFormed
      (handleDownload (envAnswering sampleSuccessData) storedSuccessState
        pageBrowser).browser) :=
  ⟨rfl, by decide, rfl, by unfold domWellFormed; decide,
    handleDownload_cleanup (envAnswering sampleSuccessData) storedSuccessState pageBrowser
      { imageUrl := "http://localhost:5000/static/flowchart_1.png",
        nodes := .num 4, edges := .num 3, mermaid := .str "graph TD" }
      { json := some sampleSuccessData, blob := some [137, 80, 78, 71] }
      [137, 80, 78, 71] rfl (by decide) rfl rfl (by unfold domWellFormed; decide)⟩

end FlowchartGenerator
